import Mathlib

/-!
Shallow embedding of the LibChat repository's PlayerOne camera SDK example
programs (examples/C++/POACamera.{h,cpp}, examples/C++/main.cpp,
examples/C/main.c).

The vendor SDK (`PlayerOneCamera.h` / the closed binary library) is not part
of the source tree; it is modelled as an oracle: a record `SDK` whose fields
give, for each SDK entry point, the status code and out-parameter values that
the call would return.  The example code is translated statement by
statement against this oracle.  Each wrapper method additionally returns the
list of SDK calls it performed (with the arguments it passed) and the list
of lines it printed to the error stream (`cerr`), so that claims about call
shapes and error reporting can be stated.  `POAGetErrorString` is a pure
error-to-string lookup used to build the printed messages; it is modelled as
the oracle field `POAGetErrorString` and is not recorded as an operational
camera call.
-/

namespace LibChat

/-- SDK status code type (`POAErrors` in `PlayerOneCamera.h`, not in the
source tree).  The examples only ever compare a status against the success
sentinel `POA_OK`, so all failure codes are modelled by one constructor
carrying an unconstrained numeric code. -/
inductive POAErrors where
  | POA_OK
  | POA_ERROR (code : Nat)
deriving DecidableEq, Repr

export POAErrors (POA_OK POA_ERROR)

/-- SDK boolean type (`POABool` in `PlayerOneCamera.h`). -/
inductive POABool where
  | POA_FALSE
  | POA_TRUE
deriving DecidableEq, Repr

export POABool (POA_FALSE POA_TRUE)

/-- SDK camera state (`POACameraState`); the examples only test for
`STATE_EXPOSING`. -/
inductive POACameraState where
  | STATE_CLOSED
  | STATE_OPENED
  | STATE_EXPOSING
deriving DecidableEq, Repr

export POACameraState (STATE_CLOSED STATE_OPENED STATE_EXPOSING)

/-- SDK image format (`POAImgFormat`), including the `POA_END` sentinel
handled by `POACamera::getImageFormat`. -/
inductive POAImgFormat where
  | POA_RAW8
  | POA_RAW16
  | POA_RGB24
  | POA_MONO8
  | POA_END
deriving DecidableEq, Repr

export POAImgFormat (POA_RAW8 POA_RAW16 POA_RGB24 POA_MONO8 POA_END)

/-- SDK configuration keys (`POAConfig`) used by the embedded example code. -/
inductive POAConfig where
  | POA_EXPOSURE
  | POA_GAIN
  | POA_EXP
deriving DecidableEq, Repr

export POAConfig (POA_EXPOSURE POA_GAIN POA_EXP)

/-- SDK configuration value (`POAConfigValue`).  In C this is a union of
`long intValue`, `double floatValue`, `POABool boolValue`; it is modelled as
a record of the three members. -/
structure POAConfigValue where
  intValue : Int
  floatValue : Float
  boolValue : POABool
deriving Repr

/-- SDK camera properties record (`POACameraProperties`); only the members
read by the example code are modelled. -/
structure POACameraProperties where
  cameraID : Int
  cameraModelName : String
  SN : String
  sensorModelName : String
deriving DecidableEq, Repr

/-- Value-type tag of a configuration attribute (`POAValueType`). -/
inductive POAValueType where
  | VAL_INT
  | VAL_FLOAT
  | VAL_BOOL
deriving DecidableEq, Repr

export POAValueType (VAL_INT VAL_FLOAT VAL_BOOL)

/-- SDK configuration attribute descriptor (`POAConfigAttributes`); only the
members read by the example code are modelled. -/
structure POAConfigAttributes where
  szConfName : String
  szDescription : String
  isWritable : POABool
  isReadable : POABool
  valueType : POAValueType
  minValue : POAConfigValue
  maxValue : POAConfigValue
  defaultValue : POAConfigValue
deriving Repr

/-- One operational SDK call as performed by the example code, recording the
arguments passed (in particular the camera-ID argument). -/
inductive SDKCall where
  | getCameraCount
  | getCameraProperties (index : Nat)
  | openCamera (camID : Int)
  | initCamera (camID : Int)
  | getConfigsCount (camID : Int)
  | getConfigAttributes (camID : Int) (index : Nat)
  | getCameraState (camID : Int)
  | stopExposure (camID : Int)
  | setImageSize (camID : Int) (width height : Int)
  | setImageStartPos (camID : Int) (startX startY : Int)
  | getImageStartPos (camID : Int)
  | getImageSize (camID : Int)
  | setImageFormat (camID : Int) (fmt : POAImgFormat)
  | getImageFormat (camID : Int)
  | setConfig (camID : Int) (cfg : POAConfig) (value : Int) (isAuto : POABool)
  | getConfig (camID : Int) (cfg : POAConfig)
  | startExposure (camID : Int) (singleFrame : POABool)
  | imageReady (camID : Int)
  | getImageData (camID : Int) (size : Nat) (timeoutMs : Int)
  | closeCamera (camID : Int)
deriving DecidableEq, Repr

/-- The camera-ID argument of an SDK call, when the call takes one. -/
def SDKCall.camArg : SDKCall → Option Int
  | .getCameraCount => none
  | .getCameraProperties _ => none
  | .openCamera i => some i
  | .initCamera i => some i
  | .getConfigsCount i => some i
  | .getConfigAttributes i _ => some i
  | .getCameraState i => some i
  | .stopExposure i => some i
  | .setImageSize i _ _ => some i
  | .setImageStartPos i _ _ => some i
  | .getImageStartPos i => some i
  | .getImageSize i => some i
  | .setImageFormat i _ => some i
  | .getImageFormat i => some i
  | .setConfig i _ _ _ => some i
  | .getConfig i _ => some i
  | .startExposure i _ => some i
  | .imageReady i => some i
  | .getImageData i _ _ => some i
  | .closeCamera i => some i

/-- Oracle for the closed vendor SDK: for each entry point, the status code
and out-parameter values the call returns.  The oracle is stateless; calls
inside loops that may observe different answers over time (the image-ready
poll, the repeated image fetches of `main`) are modelled separately by
streams. -/
structure SDK where
  POAGetCameraCount : Nat
  POAGetCameraProperties : Nat → POAErrors × POACameraProperties
  POAOpenCamera : Int → POAErrors
  POAInitCamera : Int → POAErrors
  POAGetConfigsCount : Int → POAErrors × Nat
  POAGetConfigAttributes : Int → Nat → POAErrors × POAConfigAttributes
  POAGetCameraState : Int → POAErrors × POACameraState
  POAStopExposure : Int → POAErrors
  POASetImageSize : Int → Int → Int → POAErrors
  POASetImageStartPos : Int → Int → Int → POAErrors
  POAGetImageStartPos : Int → POAErrors × Int × Int
  POAGetImageSize : Int → POAErrors × Int × Int
  POASetImageFormat : Int → POAImgFormat → POAErrors
  POAGetImageFormat : Int → POAErrors × POAImgFormat
  POASetConfig : Int → POAConfig → Int → POABool → POAErrors
  POAGetConfig : Int → POAConfig → POAErrors × POAConfigValue × POABool
  POAStartExposure : Int → POABool → POAErrors
  POAImageReady : Int → POAErrors × POABool
  POAGetImageData : Int → Nat → Int → POAErrors
  POACloseCamera : Int → POAErrors
  POAGetErrorString : POAErrors → String

/-- The example's camera wrapper class (`POACamera.h`): its only instance
state is the private member `m_nCameraID`. -/
structure POACamera where
  m_nCameraID : Int
deriving DecidableEq, Repr

/-- Default constructor `POACamera::POACamera()`: sets `m_nCameraID = -1`. -/
def POACamera.mkDefault : POACamera := ⟨-1⟩

/-- Constructor `POACamera::POACamera(int nCameraID)`. -/
def POACamera.mkWithID (nCameraID : Int) : POACamera := ⟨nCameraID⟩

/-- Result of running one wrapper method: the C++ return value, the object
state after the call, the operational SDK calls performed (in order), and
the lines printed to `cerr` (in order). -/
structure MRes (α : Type) where
  ret : α
  self : POACamera
  calls : List SDKCall
  log : List String

/-- `ROIArea` struct from `POACamera.h`. -/
structure ROIArea where
  startX : Int
  startY : Int
  width : Int
  height : Int
deriving DecidableEq, Repr

/-- `ROIArea`'s constructor: all members zero. -/
def ROIArea.mkZero : ROIArea := ⟨0, 0, 0, 0⟩

/-- Wrapper image-format enum `POACamera::ImageFormat`. -/
inductive ImageFormat where
  | RAW8
  | RAW16
  | RGB888
  | MONO8
deriving DecidableEq, Repr

/-- The forward format mapping: the `switch (imgFmt)` in
`POACamera::setImageFormat` (POACamera.cpp lines 218-232). -/
def toPOAImgFormat : ImageFormat → POAImgFormat
  | .RAW8 => POA_RAW8
  | .RAW16 => POA_RAW16
  | .RGB888 => POA_RGB24
  | .MONO8 => POA_MONO8

/-- The reverse format mapping: the `switch (poaImgFmt)` in
`POACamera::getImageFormat` (POACamera.cpp lines 256-273), including the
`POA_END` case. -/
def toImageFormat : POAImgFormat → ImageFormat
  | POA_RAW8 => .RAW8
  | POA_RAW16 => .RAW16
  | POA_RGB24 => .RGB888
  | POA_MONO8 => .MONO8
  | POA_END => .RAW8

/-- `std::map<int,string>::insert` on the ordered map modelled as a sorted
association list: the pair is inserted at its key's position, and an
existing entry with the same key is left unchanged (insert does not
overwrite). -/
def mapInsert (k : Int) (v : String) : List (Int × String) → List (Int × String)
  | [] => [(k, v)]
  | (k2, v2) :: rest =>
    if k < k2 then (k, v) :: (k2, v2) :: rest
    else if k = k2 then (k2, v2) :: rest
    else (k2, v2) :: mapInsert k v rest

/-- The `for(int i = 0; i < camera_count; ++i)` loop of
`POACamera::getALLCameraIDName` (POACamera.cpp lines 27-39), iterating over
device indices `0, 1, ..., n-1` in order: a failing
`POAGetCameraProperties` is skipped (`continue`) with no output, a
succeeding one inserts `(cameraID, cameraModelName)` into the map.  Returns
the accumulated map and the SDK calls performed. -/
def camEnumLoop (sdk : SDK) : Nat → List (Int × String) × List SDKCall
  | 0 => ([], [])
  | n + 1 =>
    let prev := camEnumLoop sdk n
    let res := sdk.POAGetCameraProperties n
    (if res.1 ≠ POA_OK then prev.1
     else mapInsert res.2.cameraID res.2.cameraModelName prev.1,
     prev.2 ++ [.getCameraProperties n])

/-- Static method `POACamera::getALLCameraIDName` (POACamera.cpp lines
21-43): reads the camera count and enumerates the devices.  It has no
`this` object; the result carries the returned map, the SDK calls, and the
(empty) error output. -/
def POACamera.getALLCameraIDName (sdk : SDK) :
    List (Int × String) × List SDKCall × List String :=
  let loop := camEnumLoop sdk sdk.POAGetCameraCount
  (loop.1, SDKCall.getCameraCount :: loop.2, [])

/-- `POACamera::openCamera` (POACamera.cpp lines 45-55). -/
def POACamera.openCamera (sdk : SDK) (c : POACamera) : MRes Bool :=
  let error := sdk.POAOpenCamera c.m_nCameraID
  ⟨if error = POA_OK then true else false, c,
   [.openCamera c.m_nCameraID],
   if error ≠ POA_OK then
     ["Open camera failed！, error code: " ++ sdk.POAGetErrorString error]
   else []⟩

/-- `POACamera::initCamera` (POACamera.cpp lines 57-67). -/
def POACamera.initCamera (sdk : SDK) (c : POACamera) : MRes Bool :=
  let error := sdk.POAInitCamera c.m_nCameraID
  ⟨if error = POA_OK then true else false, c,
   [.initCamera c.m_nCameraID],
   if error ≠ POA_OK then
     ["Init camera failed！, error code: " ++ sdk.POAGetErrorString error]
   else []⟩

/-- The failure message printed for attribute index `i` inside
`POACamera::getAllConfigAttributes` (POACamera.cpp line 88). -/
def attrFailMsg (sdk : SDK) (i : Nat) (e : POAErrors) : String :=
  "Get config attributes failed！, index: " ++ toString i ++
    ", error code: " ++ sdk.POAGetErrorString e

/-- The `for(int i = 0; i < config_count; i++)` loop of
`POACamera::getAllConfigAttributes` (POACamera.cpp lines 80-113), iterating
over attribute indices `0, ..., n-1` in order.  A failing
`POAGetConfigAttributes` prints to `cerr` and continues; a succeeding one
prints the attribute description to `cout` (standard output, not part of
the modelled error stream). -/
def attrLoop (sdk : SDK) (camID : Int) : Nat → List SDKCall × List String
  | 0 => ([], [])
  | n + 1 =>
    let prev := attrLoop sdk camID n
    let e := (sdk.POAGetConfigAttributes camID n).1
    (prev.1 ++ [.getConfigAttributes camID n],
     prev.2 ++ (if e ≠ POA_OK then [attrFailMsg sdk n e] else []))

/-- `POACamera::getAllConfigAttributes` (POACamera.cpp lines 69-114). -/
def POACamera.getAllConfigAttributes (sdk : SDK) (c : POACamera) : MRes Unit :=
  let res := sdk.POAGetConfigsCount c.m_nCameraID
  if res.1 ≠ POA_OK then
    ⟨(), c, [.getConfigsCount c.m_nCameraID],
     ["Get config count failed！, error code: " ++ sdk.POAGetErrorString res.1]⟩
  else
    let loop := attrLoop sdk c.m_nCameraID res.2
    ⟨(), c, .getConfigsCount c.m_nCameraID :: loop.1, loop.2⟩

/-- `POACamera::setROIArea` (POACamera.cpp lines 116-147): queries the
camera state (status ignored), stops the exposure if exposing (status
ignored), then sets the resolution and, if that succeeded, the start
position; each of the two setters logs and aborts on failure. -/
def POACamera.setROIArea (sdk : SDK) (c : POACamera) (roiArea : ROIArea) :
    MRes Bool :=
  let cameraState := (sdk.POAGetCameraState c.m_nCameraID).2
  let stateCalls : List SDKCall :=
    [.getCameraState c.m_nCameraID] ++
      (if cameraState = STATE_EXPOSING then [.stopExposure c.m_nCameraID] else [])
  let e1 := sdk.POASetImageSize c.m_nCameraID roiArea.width roiArea.height
  if e1 ≠ POA_OK then
    ⟨false, c,
     stateCalls ++ [.setImageSize c.m_nCameraID roiArea.width roiArea.height],
     ["set resolution failed, error code: " ++ sdk.POAGetErrorString e1]⟩
  else
    let e2 := sdk.POASetImageStartPos c.m_nCameraID roiArea.startX roiArea.startY
    ⟨if e2 = POA_OK then true else false, c,
     stateCalls ++ [.setImageSize c.m_nCameraID roiArea.width roiArea.height,
                    .setImageStartPos c.m_nCameraID roiArea.startX roiArea.startY],
     if e2 ≠ POA_OK then
       ["set start position failed, error code: " ++ sdk.POAGetErrorString e2]
     else []⟩

/-- `POACamera::getROIArea` (POACamera.cpp lines 149-167): reads the start
position and the resolution, logging each failure; the returned struct
holds whatever the SDK wrote through the out-pointers. -/
def POACamera.getROIArea (sdk : SDK) (c : POACamera) : MRes ROIArea :=
  let r1 := sdk.POAGetImageStartPos c.m_nCameraID
  let r2 := sdk.POAGetImageSize c.m_nCameraID
  ⟨⟨r1.2.1, r1.2.2, r2.2.1, r2.2.2⟩, c,
   [.getImageStartPos c.m_nCameraID, .getImageSize c.m_nCameraID],
   (if r1.1 ≠ POA_OK then
      ["get start position failed, error code: " ++ sdk.POAGetErrorString r1.1]
    else []) ++
   (if r2.1 ≠ POA_OK then
      ["get resolution failed, error code: " ++ sdk.POAGetErrorString r2.1]
    else [])⟩

/-- `POACamera::setImageSize` (POACamera.cpp lines 169-190): queries the
camera state (status ignored), stops the exposure if exposing, then sets
the resolution. -/
def POACamera.setImageSize (sdk : SDK) (c : POACamera) (width height : Int) :
    MRes Bool :=
  let cameraState := (sdk.POAGetCameraState c.m_nCameraID).2
  let stateCalls : List SDKCall :=
    [.getCameraState c.m_nCameraID] ++
      (if cameraState = STATE_EXPOSING then [.stopExposure c.m_nCameraID] else [])
  let error := sdk.POASetImageSize c.m_nCameraID width height
  ⟨if error = POA_OK then true else false, c,
   stateCalls ++ [.setImageSize c.m_nCameraID width height],
   if error ≠ POA_OK then
     ["set resolution failed, error code: " ++ sdk.POAGetErrorString error]
   else []⟩

/-- `POACamera::setImageStartPos` (POACamera.cpp lines 192-203). -/
def POACamera.setImageStartPos (sdk : SDK) (c : POACamera) (startX startY : Int) :
    MRes Bool :=
  let error := sdk.POASetImageStartPos c.m_nCameraID startX startY
  ⟨if error = POA_OK then true else false, c,
   [.setImageStartPos c.m_nCameraID startX startY],
   if error ≠ POA_OK then
     ["set start position failed, error code: " ++ sdk.POAGetErrorString error]
   else []⟩

/-- `POACamera::setImageFormat` (POACamera.cpp lines 205-242): queries the
camera state (status ignored), stops the exposure if exposing, maps the
wrapper format to the SDK format, and sets it. -/
def POACamera.setImageFormat (sdk : SDK) (c : POACamera) (imgFmt : ImageFormat) :
    MRes Bool :=
  let cameraState := (sdk.POAGetCameraState c.m_nCameraID).2
  let stateCalls : List SDKCall :=
    [.getCameraState c.m_nCameraID] ++
      (if cameraState = STATE_EXPOSING then [.stopExposure c.m_nCameraID] else [])
  let poaImgFmt := toPOAImgFormat imgFmt
  let error := sdk.POASetImageFormat c.m_nCameraID poaImgFmt
  ⟨if error = POA_OK then true else false, c,
   stateCalls ++ [.setImageFormat c.m_nCameraID poaImgFmt],
   if error ≠ POA_OK then
     ["set image format failed, error code: " ++ sdk.POAGetErrorString error]
   else []⟩

/-- `POACamera::getImageFormat` (POACamera.cpp lines 244-276): reads the
SDK format (logging a failure) and maps it back through the reverse
switch. -/
def POACamera.getImageFormat (sdk : SDK) (c : POACamera) : MRes ImageFormat :=
  let res := sdk.POAGetImageFormat c.m_nCameraID
  ⟨toImageFormat res.2, c,
   [.getImageFormat c.m_nCameraID],
   if res.1 ≠ POA_OK then
     ["get image format failed, error code: " ++ sdk.POAGetErrorString res.1]
   else []⟩

/-- `POACamera::setExposure` (POACamera.cpp lines 278-292). -/
def POACamera.setExposure (sdk : SDK) (c : POACamera) (expoUs : Int)
    (isAuto : Bool) : MRes Bool :=
  let error := sdk.POASetConfig c.m_nCameraID POA_EXPOSURE expoUs
    (if isAuto then POA_TRUE else POA_FALSE)
  ⟨if error = POA_OK then true else false, c,
   [.setConfig c.m_nCameraID POA_EXPOSURE expoUs
      (if isAuto then POA_TRUE else POA_FALSE)],
   if error ≠ POA_OK then
     ["set exposure failed, error code: " ++ sdk.POAGetErrorString error]
   else []⟩

/-- `POACamera::getExposure` (POACamera.cpp lines 294-309): returns `-1` on
a failed `POAGetConfig`, else the retrieved `intValue`. -/
def POACamera.getExposure (sdk : SDK) (c : POACamera) : MRes Int :=
  let res := sdk.POAGetConfig c.m_nCameraID POA_EXPOSURE
  if res.1 ≠ POA_OK then
    ⟨-1, c, [.getConfig c.m_nCameraID POA_EXPOSURE],
     ["get exposure failed, error code: " ++ sdk.POAGetErrorString res.1]⟩
  else
    ⟨res.2.1.intValue, c, [.getConfig c.m_nCameraID POA_EXPOSURE], []⟩

/-- `POACamera::setGain` (POACamera.cpp lines 311-325). -/
def POACamera.setGain (sdk : SDK) (c : POACamera) (gain : Int)
    (isAuto : Bool) : MRes Bool :=
  let error := sdk.POASetConfig c.m_nCameraID POA_GAIN gain
    (if isAuto then POA_TRUE else POA_FALSE)
  ⟨if error = POA_OK then true else false, c,
   [.setConfig c.m_nCameraID POA_GAIN gain
      (if isAuto then POA_TRUE else POA_FALSE)],
   if error ≠ POA_OK then
     ["set gain failed, error code: " ++ sdk.POAGetErrorString error]
   else []⟩

/-- `POACamera::getGain` (POACamera.cpp lines 327-342): returns `-1` on a
failed `POAGetConfig`, else the retrieved `intValue`. -/
def POACamera.getGain (sdk : SDK) (c : POACamera) : MRes Int :=
  let res := sdk.POAGetConfig c.m_nCameraID POA_GAIN
  if res.1 ≠ POA_OK then
    ⟨-1, c, [.getConfig c.m_nCameraID POA_GAIN],
     ["get gain failed, error code: " ++ sdk.POAGetErrorString res.1]⟩
  else
    ⟨res.2.1.intValue, c, [.getConfig c.m_nCameraID POA_GAIN], []⟩

/-- `POACamera::startExposure` (POACamera.cpp lines 344-355): continuous
exposure (`POA_FALSE` for the single-frame flag). -/
def POACamera.startExposure (sdk : SDK) (c : POACamera) : MRes Bool :=
  let error := sdk.POAStartExposure c.m_nCameraID POA_FALSE
  ⟨if error = POA_OK then true else false, c,
   [.startExposure c.m_nCameraID POA_FALSE],
   if error ≠ POA_OK then
     ["start exposure failed, error code: " ++ sdk.POAGetErrorString error]
   else []⟩

/-- `POACamera::isImgDataAvailable` (POACamera.cpp lines 357-369): returns
`false` on a failed `POAImageReady` with no message, else whether the flag
is `POA_TRUE`. -/
def POACamera.isImgDataAvailable (sdk : SDK) (c : POACamera) : MRes Bool :=
  let res := sdk.POAImageReady c.m_nCameraID
  if res.1 ≠ POA_OK then
    ⟨false, c, [.imageReady c.m_nCameraID], []⟩
  else
    ⟨if res.2 = POA_TRUE then true else false, c,
     [.imageReady c.m_nCameraID], []⟩

/-- `POACamera::getImageData` (POACamera.cpp lines 371-377): reads the
exposure through `getExposure` (which may itself log), computes the timeout
`exposureUs / 1000 + 500` with C truncating division, fetches the buffer,
and reports only the boolean status — a failed fetch prints nothing. -/
def POACamera.getImageData (sdk : SDK) (c : POACamera) (size : Nat) : MRes Bool :=
  let ge := c.getExposure sdk
  let exposureUs := ge.ret
  let timeoutMs := Int.tdiv exposureUs 1000 + 500
  let error := sdk.POAGetImageData c.m_nCameraID size timeoutMs
  ⟨if error = POA_OK then true else false, c,
   ge.calls ++ [.getImageData c.m_nCameraID size timeoutMs],
   ge.log⟩

/-- `POACamera::stopExposure` (POACamera.cpp lines 379-390). -/
def POACamera.stopExposure (sdk : SDK) (c : POACamera) : MRes Bool :=
  let error := sdk.POAStopExposure c.m_nCameraID
  ⟨if error = POA_OK then true else false, c,
   [.stopExposure c.m_nCameraID],
   if error ≠ POA_OK then
     ["stop exposure failed, error code: " ++ sdk.POAGetErrorString error]
   else []⟩

/-- `POACamera::closeCamera` (POACamera.cpp lines 392-403); the message
keeps the source's `clsoe` typo. -/
def POACamera.closeCamera (sdk : SDK) (c : POACamera) : MRes Bool :=
  let error := sdk.POACloseCamera c.m_nCameraID
  ⟨if error = POA_OK then true else false, c,
   [.closeCamera c.m_nCameraID],
   if error ≠ POA_OK then
     ["clsoe camera failed, error code: " ++ sdk.POAGetErrorString error]
   else []⟩

/-- `POACamera::getCameraID` (POACamera.cpp lines 405-408): no SDK call. -/
def POACamera.getCameraID (sdk : SDK) (c : POACamera) : MRes Int :=
  ⟨c.m_nCameraID, c, [], []⟩

/-- `POACamera::setCameraID` (POACamera.cpp lines 410-413): the one method
that assigns `m_nCameraID`. -/
def POACamera.setCameraID (sdk : SDK) (c : POACamera) (nCameraID : Int) :
    MRes Unit :=
  ⟨(), ⟨nCameraID⟩, [], []⟩

/-!
Embedding of the example `main` programs.

The C++ `main` (examples/C++/main.cpp) is straight-line except for its
capture loop; its interaction with the camera is modelled as a trace of
events (`MainEvent`).  The statuses returned by the setup calls affect only
console prints in `main`, not its control flow, so the trace is
parametrised by whether the enumeration found a camera, by a stream
`avail : Nat → Bool` giving the value of the `t`-th `isImgDataAvailable`
poll, by a stream `fetchOk : Nat → Bool` giving the status of the `k`-th
`getImageData` call, and by a fuel bound (`none` means the loops did not
finish within the fuel — the code itself has no such bound).
-/

/-- One step of the C++ `main`'s camera interaction, at the granularity of
the wrapper operations it invokes, plus the file writes. -/
inductive MainEvent where
  | enumerate
  | openCam
  | initCam
  | getAttrs
  | setSize (width height : Int)
  | setPos (startX startY : Int)
  | setFmt (fmt : ImageFormat)
  | setExpo (expoUs : Int)
  | setGain (gain : Int)
  | startExpo
  | poll
  | fetch (size : Nat)
  | persist (fileName : String) (size : Nat)
  | closeCam
deriving DecidableEq, Repr

/-- Pipeline stage of an event, following the spec's arrow chain
"enumerate devices → open → configure → start exposure → poll ready flag →
copy buffer → optionally persist to a file → close". -/
def MainEvent.stage : MainEvent → Nat
  | .enumerate => 0
  | .openCam => 1
  | .initCam => 2
  | .getAttrs => 2
  | .setSize _ _ => 2
  | .setPos _ _ => 2
  | .setFmt _ => 2
  | .setExpo _ => 2
  | .setGain _ => 2
  | .startExpo => 3
  | .poll => 4
  | .fetch _ => 5
  | .persist _ _ => 6
  | .closeCam => 7

/-- The inner busy-wait `while(!pCamera->isImgDataAvailable()) {}`
(main.cpp lines 85-89): starting at poll index `t`, keep calling the poll
until it returns `true`.  Returns the number of poll calls made, or `none`
if the flag did not become true within `fuel` calls.  The loop itself has
no bound: the fuel is only the observation window. -/
def pollLoop (avail : Nat → Bool) : Nat → Nat → Option Nat
  | 0, _ => none
  | fuel + 1, t => if avail t then some 1 else (pollLoop avail fuel (t + 1)).map (· + 1)

/-- The buffer size allocated by the C++ `main`:
`new unsigned char[800 * 480]` (main.cpp line 78). -/
def cppBufferSize : Nat := 800 * 480

/-- The file name built by the C++ capture loop for counter value `n`:
`<n>_raw8_image_data.bin` (main.cpp lines 97-99). -/
def cppFileName (n : Nat) : String := toString n ++ "_raw8_image_data.bin"

/-- The C++ capture loop `while(img_cout > 0)` (main.cpp lines 83-108):
poll until the ready flag is true, fetch the buffer, and on a successful
fetch write `<img_cout>_raw8_image_data.bin` (800*480 bytes) and decrement
the counter; on a failed fetch print and `continue` without decrementing.
`t` is the next poll index, `k` the next fetch index; `none` means the loop
did not finish within `fuel` outer passes (the loop itself has no bound
other than the counter reaching zero). -/
def cppCapture (avail fetchOk : Nat → Bool) :
    Nat → Nat → Nat → Nat → Option (List MainEvent)
  | _, _, _, 0 => some []
  | 0, _, _, _ + 1 => none
  | fuel + 1, t, k, cout + 1 =>
    match pollLoop avail (fuel + 1) t with
    | none => none
    | some n =>
      if fetchOk k then
        (cppCapture avail fetchOk fuel (t + n) (k + 1) cout).map
          (fun rest =>
            List.replicate n .poll ++
            [.fetch cppBufferSize,
             .persist (cppFileName (cout + 1)) cppBufferSize] ++ rest)
      else
        (cppCapture avail fetchOk fuel (t + n) (k + 1) (cout + 1)).map
          (fun rest =>
            List.replicate n .poll ++ [.fetch cppBufferSize] ++ rest)

/-- The straight-line part of the C++ `main` before its capture loop
(main.cpp lines 19-76): enumeration, open, init, and the configure calls
with their literal arguments, then start exposure. -/
def cppSetupEvents : List MainEvent :=
  [.enumerate, .openCam, .initCam, .getAttrs,
   .setSize 800 480, .setPos 100 100, .setFmt .RAW8,
   .setExpo 100000, .setGain 50, .startExpo]

/-- The camera-interaction trace of the C++ `main` (main.cpp lines 14-124):
enumeration, then — when a camera was found — open, init, the configure
calls with their literal arguments, start exposure, the capture loop with
an initial counter of 10, and close. -/
def cppMainTrace (hasCamera : Bool) (avail fetchOk : Nat → Bool) (fuel : Nat) :
    Option (List MainEvent) :=
  if hasCamera then
    (cppCapture avail fetchOk fuel 0 0 10).map
      (fun loopEvents => cppSetupEvents ++ loopEvents ++ [.closeCam])
  else
    some [.enumerate]

/-- Bytes per pixel of a wrapper image format, as documented in the
examples (main.c line 322: RAW8/MONO8 are 1 byte, RAW16 is 2, RGB is 3). -/
def bytesPerPixel : ImageFormat → Nat
  | .RAW8 => 1
  | .RAW16 => 2
  | .RGB888 => 3
  | .MONO8 => 1

/-- Bytes per pixel of an SDK image format (main.c line 322). -/
def bytesPerPixelPOA : POAImgFormat → Nat
  | POA_RAW8 => 1
  | POA_RAW16 => 2
  | POA_RGB24 => 3
  | POA_MONO8 => 1
  | POA_END => 1

/-- The width the C `main` configures, from the width `w0` it read back (or
fell back to): `width -= 50; width = width / 4 * 4;` with C truncating
division (main.c lines 159-162). -/
def cWidth (w0 : Int) : Int := Int.tdiv (w0 - 50) 4 * 4

/-- The height the C `main` configures: `height -= 20; height = height / 2
* 2;` (main.c lines 160-163). -/
def cHeight (h0 : Int) : Int := Int.tdiv (h0 - 20) 2 * 2

/-- The buffer size allocated by the C `main`:
`long buffer_size = width * height * 2; //raw16` (main.c line 218). -/
def cBufferSize (w0 h0 : Int) : Int := cWidth w0 * cHeight h0 * 2

/-- The file name built by the C capture loop for counter value `n`:
`sprintf(str, "%d_raw16_image_data.bin", img_cout)` (main.c line 250). -/
def cFileName (n : Nat) : String := toString n ++ "_raw16_image_data.bin"

/-- One file write of a capture loop: name and byte count (a `long` in the
C example). -/
structure FileWrite where
  name : String
  bytes : Int
deriving DecidableEq, Repr

/-- The C capture loop `while(img_cout > 0)` (main.c lines 229-261),
returning the sequence of file writes: poll `POAImageReady` until the flag
is true (its status is ignored), fetch `buffer_size` bytes, and on success
`fwrite` the whole buffer to `<img_cout>_raw16_image_data.bin` and
decrement; on failure print and `continue`. -/
def cCapture (bufferSize : Int) (avail fetchOk : Nat → Bool) :
    Nat → Nat → Nat → Nat → Option (List FileWrite)
  | _, _, _, 0 => some []
  | 0, _, _, _ + 1 => none
  | fuel + 1, t, k, cout + 1 =>
    match pollLoop avail (fuel + 1) t with
    | none => none
    | some n =>
      if fetchOk k then
        (cCapture bufferSize avail fetchOk fuel (t + n) (k + 1) cout).map
          (fun rest => ⟨cFileName (cout + 1), bufferSize⟩ :: rest)
      else
        cCapture bufferSize avail fetchOk fuel (t + n) (k + 1) (cout + 1)

/-- The file writes contained in a C++ main-trace fragment. -/
def persistsOf (evs : List MainEvent) : List FileWrite :=
  evs.filterMap (fun e =>
    match e with
    | .persist name size => some ⟨name, (size : Int)⟩
    | _ => none)

/-- Index of the first event satisfying `p` (length of the list when there
is none). -/
def firstIdx (p : MainEvent → Bool) : List MainEvent → Nat
  | [] => 0
  | e :: es => if p e then 0 else firstIdx p es + 1

/-- The counting-down counter values `[c, c-1, ..., 1]`. -/
def countdown : Nat → List Nat
  | 0 => []
  | n + 1 => (n + 1) :: countdown n

/-! Concrete oracle instances used to evaluate the embedded code. -/

/-- A zeroed configuration value. -/
def zeroValue : POAConfigValue := ⟨0, 0.0, POA_FALSE⟩

/-- A camera-properties record with id 0. -/
def props0 : POACameraProperties := ⟨0, "Camera", "SN0", "Sensor"⟩

/-- A blank configuration attribute descriptor. -/
def blankAttr : POAConfigAttributes :=
  ⟨"", "", POA_FALSE, POA_FALSE, VAL_INT, zeroValue, zeroValue, zeroValue⟩

/-- An oracle on which every SDK call succeeds: one camera, camera id 0,
no configuration attributes, camera opened, image always ready. -/
def sdkOK : SDK :=
  ⟨1,
   fun _ => (POA_OK, props0),
   fun _ => POA_OK,
   fun _ => POA_OK,
   fun _ => (POA_OK, 0),
   fun _ _ => (POA_OK, blankAttr),
   fun _ => (POA_OK, STATE_OPENED),
   fun _ => POA_OK,
   fun _ _ _ => POA_OK,
   fun _ _ _ => POA_OK,
   fun _ => (POA_OK, 0, 0),
   fun _ => (POA_OK, 800, 480),
   fun _ _ => POA_OK,
   fun _ => (POA_OK, POA_RAW8),
   fun _ _ _ _ => POA_OK,
   fun _ _ => (POA_OK, ⟨100000, 0.0, POA_FALSE⟩, POA_FALSE),
   fun _ _ => POA_OK,
   fun _ => (POA_OK, POA_TRUE),
   fun _ _ _ => POA_OK,
   fun _ => POA_OK,
   fun _ => "No Error"⟩

/-- An oracle on which every status-returning SDK call fails with code 1,
except `POAGetConfigsCount`, which succeeds and reports one attribute (so
that the attribute loop runs and its per-index failure path is taken).
Every error stringifies to `"E"`. -/
def sdkFail : SDK :=
  ⟨1,
   fun _ => (POA_ERROR 1, props0),
   fun _ => POA_ERROR 1,
   fun _ => POA_ERROR 1,
   fun _ => (POA_OK, 1),
   fun _ _ => (POA_ERROR 1, blankAttr),
   fun _ => (POA_ERROR 1, STATE_OPENED),
   fun _ => POA_ERROR 1,
   fun _ _ _ => POA_ERROR 1,
   fun _ _ _ => POA_ERROR 1,
   fun _ => (POA_ERROR 1, 0, 0),
   fun _ => (POA_ERROR 1, 0, 0),
   fun _ _ => POA_ERROR 1,
   fun _ => (POA_ERROR 1, POA_RAW8),
   fun _ _ _ _ => POA_ERROR 1,
   fun _ _ => (POA_ERROR 1, zeroValue, POA_FALSE),
   fun _ _ => POA_ERROR 1,
   fun _ => (POA_ERROR 1, POA_FALSE),
   fun _ _ _ => POA_ERROR 1,
   fun _ => POA_ERROR 1,
   fun _ => "E"⟩

/-- An oracle whose `POAGetConfig` succeeds but reports the integer value
`-1`: the genuinely configured value that collides with the error
sentinel. -/
def sdkNeg : SDK :=
  ⟨1,
   fun _ => (POA_OK, props0),
   fun _ => POA_OK,
   fun _ => POA_OK,
   fun _ => (POA_OK, 0),
   fun _ _ => (POA_OK, blankAttr),
   fun _ => (POA_OK, STATE_OPENED),
   fun _ => POA_OK,
   fun _ _ _ => POA_OK,
   fun _ _ _ => POA_OK,
   fun _ => (POA_OK, 0, 0),
   fun _ => (POA_OK, 800, 480),
   fun _ _ => POA_OK,
   fun _ => (POA_OK, POA_RAW8),
   fun _ _ _ _ => POA_OK,
   fun _ _ => (POA_OK, ⟨-1, 0.0, POA_FALSE⟩, POA_FALSE),
   fun _ _ => POA_OK,
   fun _ => (POA_OK, POA_TRUE),
   fun _ _ _ => POA_OK,
   fun _ => POA_OK,
   fun _ => "No Error"⟩

/-- An oracle reporting two devices whose properties calls both succeed and
both return camera id 7, with model names `"A"` (index 0) and `"B"`
(index 1). -/
def sdkDup : SDK :=
  ⟨2,
   fun i => (POA_OK, ⟨7, if i = 0 then "A" else "B", "", ""⟩),
   fun _ => POA_OK,
   fun _ => POA_OK,
   fun _ => (POA_OK, 0),
   fun _ _ => (POA_OK, blankAttr),
   fun _ => (POA_OK, STATE_OPENED),
   fun _ => POA_OK,
   fun _ _ _ => POA_OK,
   fun _ _ _ => POA_OK,
   fun _ => (POA_OK, 0, 0),
   fun _ => (POA_OK, 800, 480),
   fun _ _ => POA_OK,
   fun _ => (POA_OK, POA_RAW8),
   fun _ _ _ _ => POA_OK,
   fun _ _ => (POA_OK, ⟨100000, 0.0, POA_FALSE⟩, POA_FALSE),
   fun _ _ => POA_OK,
   fun _ => (POA_OK, POA_TRUE),
   fun _ _ _ => POA_OK,
   fun _ => POA_OK,
   fun _ => "No Error"⟩

/-- A camera object holding id 0. -/
def cam0 : POACamera := ⟨0⟩

/-- An oracle reporting no connected cameras (all calls succeed). -/
def sdkEmpty : SDK :=
  ⟨0,
   fun _ => (POA_OK, props0),
   fun _ => POA_OK,
   fun _ => POA_OK,
   fun _ => (POA_OK, 0),
   fun _ _ => (POA_OK, blankAttr),
   fun _ => (POA_OK, STATE_OPENED),
   fun _ => POA_OK,
   fun _ _ _ => POA_OK,
   fun _ _ _ => POA_OK,
   fun _ => (POA_OK, 0, 0),
   fun _ => (POA_OK, 800, 480),
   fun _ _ => POA_OK,
   fun _ => (POA_OK, POA_RAW8),
   fun _ _ _ _ => POA_OK,
   fun _ _ => (POA_OK, ⟨100000, 0.0, POA_FALSE⟩, POA_FALSE),
   fun _ _ => POA_OK,
   fun _ => (POA_OK, POA_TRUE),
   fun _ _ _ => POA_OK,
   fun _ => POA_OK,
   fun _ => "No Error"⟩

/-- C8: the format mappings of `setImageFormat` and `getImageFormat` are
mutually inverse on the four wrapper formats, and the reverse mapping sends
the sentinel `POA_END` to `RAW8`. -/
theorem c8_format_roundtrip :
    (∀ f : ImageFormat, toImageFormat (toPOAImgFormat f) = f) ∧
    toImageFormat POA_END = ImageFormat.RAW8 := by
  refine ⟨fun f => ?_, rfl⟩
  cases f <;> rfl

/-- C9: `getExposure` and `getGain` return `-1` exactly when the underlying
`POAGetConfig` fails, and otherwise the retrieved integer value; a genuine
configured value of `-1` is indistinguishable from the error sentinel, as
witnessed by a failing oracle and a succeeding oracle whose configured
value is `-1` yielding the same return. -/
theorem c9_error_sentinel :
    (∀ (sdk : SDK) (c : POACamera),
      (c.getExposure sdk).ret =
        (if (sdk.POAGetConfig c.m_nCameraID POA_EXPOSURE).1 = POA_OK
         then (sdk.POAGetConfig c.m_nCameraID POA_EXPOSURE).2.1.intValue
         else -1) ∧
      (c.getGain sdk).ret =
        (if (sdk.POAGetConfig c.m_nCameraID POA_GAIN).1 = POA_OK
         then (sdk.POAGetConfig c.m_nCameraID POA_GAIN).2.1.intValue
         else -1)) ∧
    (∃ (sdkFailing sdkGenuine : SDK) (c : POACamera),
      (sdkFailing.POAGetConfig c.m_nCameraID POA_EXPOSURE).1 ≠ POA_OK ∧
      (sdkGenuine.POAGetConfig c.m_nCameraID POA_EXPOSURE).1 = POA_OK ∧
      (sdkGenuine.POAGetConfig c.m_nCameraID POA_EXPOSURE).2.1.intValue = -1 ∧
      (c.getExposure sdkFailing).ret = -1 ∧
      (c.getExposure sdkGenuine).ret = -1) := by
  constructor
  · intro sdk c
    constructor
    · by_cases h : (sdk.POAGetConfig c.m_nCameraID POA_EXPOSURE).1 = POA_OK <;>
        simp [POACamera.getExposure, h]
    · by_cases h : (sdk.POAGetConfig c.m_nCameraID POA_GAIN).1 = POA_OK <;>
        simp [POACamera.getGain, h]
  · exact ⟨sdkFail, sdkNeg, cam0, by decide, rfl, rfl, by decide, by decide⟩

/-- The attribute loop performs exactly one SDK call per attribute index. -/
theorem attrLoop_length (sdk : SDK) (camID : Int) :
    ∀ n, (attrLoop sdk camID n).1.length = n
  | 0 => rfl
  | n + 1 => by simp [attrLoop, attrLoop_length sdk camID n]

/-- C2 counterexample: `setImageFormat` — one of the operations the claim
covers — performs two SDK calls (`POAGetCameraState` then
`POASetImageFormat`) even on an idle, succeeding camera, and `getImageData`
performs two (`POAGetConfig` then `POAGetImageData`); neither consists of
exactly one SDK call. -/
theorem c2_counterexample :
    (POACamera.setImageFormat sdkOK cam0 ImageFormat.RAW8).calls =
      [SDKCall.getCameraState 0, SDKCall.setImageFormat 0 POA_RAW8] ∧
    (POACamera.setImageFormat sdkOK cam0 ImageFormat.RAW8).calls.length ≠ 1 ∧
    (POACamera.getImageData sdkOK cam0 cppBufferSize).calls.length = 2 := by
  refine ⟨rfl, by decide, rfl⟩

/-- C2 (amended): open, init, start/stop exposure, close, poll-ready and
the plain setters perform exactly one SDK call, returning the status check
and logging exactly on failure (poll-ready logs nothing); but the
configure operations that guard against an ongoing exposure
(`setImageSize`, `setImageFormat`, `setROIArea`) first query the camera
state and possibly stop the exposure (two to four calls), `getROIArea`
performs two reads, `getImageData` performs two calls (an exposure read
plus the fetch) and logs only through that exposure read, and
`getAllConfigAttributes` performs one call per reported attribute after
the count query. -/
theorem c2_amended_call_counts (sdk : SDK) (c : POACamera) (roi : ROIArea)
    (width height startX startY expoUs gain : Int) (fmt : ImageFormat)
    (size : Nat) (isAuto : Bool) :
    ((c.openCamera sdk).calls.length = 1 ∧
      ((c.openCamera sdk).log = [] ↔ sdk.POAOpenCamera c.m_nCameraID = POA_OK)) ∧
    ((c.initCamera sdk).calls.length = 1 ∧
      ((c.initCamera sdk).log = [] ↔ sdk.POAInitCamera c.m_nCameraID = POA_OK)) ∧
    ((c.startExposure sdk).calls.length = 1 ∧
      ((c.startExposure sdk).log = [] ↔
        sdk.POAStartExposure c.m_nCameraID POA_FALSE = POA_OK)) ∧
    ((c.stopExposure sdk).calls.length = 1 ∧
      ((c.stopExposure sdk).log = [] ↔ sdk.POAStopExposure c.m_nCameraID = POA_OK)) ∧
    ((c.closeCamera sdk).calls.length = 1 ∧
      ((c.closeCamera sdk).log = [] ↔ sdk.POACloseCamera c.m_nCameraID = POA_OK)) ∧
    ((c.isImgDataAvailable sdk).calls.length = 1 ∧
      (c.isImgDataAvailable sdk).log = []) ∧
    (c.setImageStartPos sdk startX startY).calls.length = 1 ∧
    (c.setExposure sdk expoUs isAuto).calls.length = 1 ∧
    (c.setGain sdk gain isAuto).calls.length = 1 ∧
    (c.getExposure sdk).calls.length = 1 ∧
    (c.getGain sdk).calls.length = 1 ∧
    (c.getImageFormat sdk).calls.length = 1 ∧
    (c.setImageSize sdk width height).calls.length =
      (if (sdk.POAGetCameraState c.m_nCameraID).2 = STATE_EXPOSING then 3 else 2) ∧
    (c.setImageFormat sdk fmt).calls.length =
      (if (sdk.POAGetCameraState c.m_nCameraID).2 = STATE_EXPOSING then 3 else 2) ∧
    (c.setROIArea sdk roi).calls.length =
      ((if (sdk.POAGetCameraState c.m_nCameraID).2 = STATE_EXPOSING then 2 else 1) +
       (if sdk.POASetImageSize c.m_nCameraID roi.width roi.height = POA_OK
        then 2 else 1)) ∧
    (c.getROIArea sdk).calls.length = 2 ∧
    ((c.getImageData sdk size).calls.length = 2 ∧
      (c.getImageData sdk size).log = (c.getExposure sdk).log) ∧
    (c.getAllConfigAttributes sdk).calls.length =
      (if (sdk.POAGetConfigsCount c.m_nCameraID).1 = POA_OK
       then 1 + (sdk.POAGetConfigsCount c.m_nCameraID).2 else 1) := by
  refine ⟨⟨rfl, ?_⟩, ⟨rfl, ?_⟩, ⟨rfl, ?_⟩, ⟨rfl, ?_⟩, ⟨rfl, ?_⟩, ⟨?_, ?_⟩,
    rfl, rfl, rfl, ?_, ?_, rfl, ?_, ?_, ?_, rfl, ⟨?_, ?_⟩, ?_⟩
  · by_cases h : sdk.POAOpenCamera c.m_nCameraID = POA_OK <;>
      simp [POACamera.openCamera, h]
  · by_cases h : sdk.POAInitCamera c.m_nCameraID = POA_OK <;>
      simp [POACamera.initCamera, h]
  · by_cases h : sdk.POAStartExposure c.m_nCameraID POA_FALSE = POA_OK <;>
      simp [POACamera.startExposure, h]
  · by_cases h : sdk.POAStopExposure c.m_nCameraID = POA_OK <;>
      simp [POACamera.stopExposure, h]
  · by_cases h : sdk.POACloseCamera c.m_nCameraID = POA_OK <;>
      simp [POACamera.closeCamera, h]
  · by_cases h : (sdk.POAImageReady c.m_nCameraID).1 = POA_OK <;>
      simp [POACamera.isImgDataAvailable, h]
  · by_cases h : (sdk.POAImageReady c.m_nCameraID).1 = POA_OK <;>
      simp [POACamera.isImgDataAvailable, h]
  · by_cases h : (sdk.POAGetConfig c.m_nCameraID POA_EXPOSURE).1 = POA_OK <;>
      simp [POACamera.getExposure, h]
  · by_cases h : (sdk.POAGetConfig c.m_nCameraID POA_GAIN).1 = POA_OK <;>
      simp [POACamera.getGain, h]
  · by_cases h : (sdk.POAGetCameraState c.m_nCameraID).2 = STATE_EXPOSING <;>
      simp [POACamera.setImageSize, h]
  · by_cases h : (sdk.POAGetCameraState c.m_nCameraID).2 = STATE_EXPOSING <;>
      simp [POACamera.setImageFormat, h]
  · by_cases hs : (sdk.POAGetCameraState c.m_nCameraID).2 = STATE_EXPOSING <;>
      by_cases he : sdk.POASetImageSize c.m_nCameraID roi.width roi.height = POA_OK <;>
      simp [POACamera.setROIArea, hs, he]
  · by_cases h : (sdk.POAGetConfig c.m_nCameraID POA_EXPOSURE).1 = POA_OK <;>
      simp [POACamera.getImageData, POACamera.getExposure, h]
  · by_cases h : (sdk.POAGetConfig c.m_nCameraID POA_EXPOSURE).1 = POA_OK <;>
      simp [POACamera.getImageData, POACamera.getExposure, h]
  · by_cases h : (sdk.POAGetConfigsCount c.m_nCameraID).1 = POA_OK <;>
      simp [POACamera.getAllConfigAttributes, h, attrLoop_length] <;> omega

/-- An oracle on which every SDK call fails with code 2, including the
configuration count query; every error stringifies to `"E2"`. -/
def sdkDown : SDK :=
  ⟨1,
   fun _ => (POA_ERROR 2, props0),
   fun _ => POA_ERROR 2,
   fun _ => POA_ERROR 2,
   fun _ => (POA_ERROR 2, 1),
   fun _ _ => (POA_ERROR 2, blankAttr),
   fun _ => (POA_ERROR 2, STATE_OPENED),
   fun _ => POA_ERROR 2,
   fun _ _ _ => POA_ERROR 2,
   fun _ _ _ => POA_ERROR 2,
   fun _ => (POA_ERROR 2, 0, 0),
   fun _ => (POA_ERROR 2, 0, 0),
   fun _ _ => POA_ERROR 2,
   fun _ => (POA_ERROR 2, POA_RAW8),
   fun _ _ _ _ => POA_ERROR 2,
   fun _ _ => (POA_ERROR 2, zeroValue, POA_FALSE),
   fun _ _ => POA_ERROR 2,
   fun _ => (POA_ERROR 2, POA_FALSE),
   fun _ _ _ => POA_ERROR 2,
   fun _ => POA_ERROR 2,
   fun _ => "E2"⟩

/-- A failing `POAGetConfigAttributes` at index `i < n` leaves its message
in the attribute loop's error output. -/
theorem attrLoop_msg_mem (sdk : SDK) (camID : Int) :
    ∀ n i, i < n → (sdk.POAGetConfigAttributes camID i).1 ≠ POA_OK →
      attrFailMsg sdk i (sdk.POAGetConfigAttributes camID i).1 ∈
        (attrLoop sdk camID n).2
  | 0, i, hi, _ => absurd hi (Nat.not_lt_zero i)
  | n + 1, i, hi, herr => by
    rcases Nat.lt_succ_iff_lt_or_eq.mp hi with h | h
    · exact List.mem_append_left _ (attrLoop_msg_mem sdk camID n i h herr)
    · subst h
      simp [attrLoop, herr]

/-- C1 counterexample: on an oracle whose `POAImageReady` fails,
`isImgDataAvailable` receives a non-OK status yet prints nothing — it just
returns `false` — so not every SDK call's failure is reported through
`POAGetErrorString`. -/
theorem c1_counterexample :
    (sdkFail.POAImageReady cam0.m_nCameraID).1 ≠ POA_OK ∧
    (POACamera.isImgDataAvailable sdkFail cam0).log = [] ∧
    (POACamera.isImgDataAvailable sdkFail cam0).ret = false := by
  refine ⟨by decide, rfl, rfl⟩

/-- C1 (amended): the call sites that report failures print a message built
from `POAGetErrorString`, and those are exactly the sites listed here;
however `isImgDataAvailable` and `getImageData` (for its own fetch) print
nothing and merely return `false`, and `getALLCameraIDName` silently skips
failing device indices. -/
theorem c1_amended_error_printing (sdk : SDK) (c : POACamera) (roi : ROIArea)
    (width height startX startY expoUs gain : Int) (fmt : ImageFormat)
    (size : Nat) (isAuto : Bool) :
    ((c.openCamera sdk).log =
      (if sdk.POAOpenCamera c.m_nCameraID = POA_OK then [] else
        ["Open camera failed！, error code: " ++
          sdk.POAGetErrorString (sdk.POAOpenCamera c.m_nCameraID)])) ∧
    ((c.initCamera sdk).log =
      (if sdk.POAInitCamera c.m_nCameraID = POA_OK then [] else
        ["Init camera failed！, error code: " ++
          sdk.POAGetErrorString (sdk.POAInitCamera c.m_nCameraID)])) ∧
    ((c.setImageStartPos sdk startX startY).log =
      (if sdk.POASetImageStartPos c.m_nCameraID startX startY = POA_OK then [] else
        ["set start position failed, error code: " ++
          sdk.POAGetErrorString (sdk.POASetImageStartPos c.m_nCameraID startX startY)])) ∧
    ((c.setExposure sdk expoUs isAuto).log =
      (if sdk.POASetConfig c.m_nCameraID POA_EXPOSURE expoUs
            (if isAuto then POA_TRUE else POA_FALSE) = POA_OK then [] else
        ["set exposure failed, error code: " ++
          sdk.POAGetErrorString (sdk.POASetConfig c.m_nCameraID POA_EXPOSURE expoUs
            (if isAuto then POA_TRUE else POA_FALSE))])) ∧
    ((c.setGain sdk gain isAuto).log =
      (if sdk.POASetConfig c.m_nCameraID POA_GAIN gain
            (if isAuto then POA_TRUE else POA_FALSE) = POA_OK then [] else
        ["set gain failed, error code: " ++
          sdk.POAGetErrorString (sdk.POASetConfig c.m_nCameraID POA_GAIN gain
            (if isAuto then POA_TRUE else POA_FALSE))])) ∧
    ((c.startExposure sdk).log =
      (if sdk.POAStartExposure c.m_nCameraID POA_FALSE = POA_OK then [] else
        ["start exposure failed, error code: " ++
          sdk.POAGetErrorString (sdk.POAStartExposure c.m_nCameraID POA_FALSE)])) ∧
    ((c.stopExposure sdk).log =
      (if sdk.POAStopExposure c.m_nCameraID = POA_OK then [] else
        ["stop exposure failed, error code: " ++
          sdk.POAGetErrorString (sdk.POAStopExposure c.m_nCameraID)])) ∧
    ((c.closeCamera sdk).log =
      (if sdk.POACloseCamera c.m_nCameraID = POA_OK then [] else
        ["clsoe camera failed, error code: " ++
          sdk.POAGetErrorString (sdk.POACloseCamera c.m_nCameraID)])) ∧
    ((c.getExposure sdk).log =
      (if (sdk.POAGetConfig c.m_nCameraID POA_EXPOSURE).1 = POA_OK then [] else
        ["get exposure failed, error code: " ++
          sdk.POAGetErrorString (sdk.POAGetConfig c.m_nCameraID POA_EXPOSURE).1])) ∧
    ((c.getGain sdk).log =
      (if (sdk.POAGetConfig c.m_nCameraID POA_GAIN).1 = POA_OK then [] else
        ["get gain failed, error code: " ++
          sdk.POAGetErrorString (sdk.POAGetConfig c.m_nCameraID POA_GAIN).1])) ∧
    ((c.getImageFormat sdk).log =
      (if (sdk.POAGetImageFormat c.m_nCameraID).1 = POA_OK then [] else
        ["get image format failed, error code: " ++
          sdk.POAGetErrorString (sdk.POAGetImageFormat c.m_nCameraID).1])) ∧
    ((c.setImageSize sdk width height).log =
      (if sdk.POASetImageSize c.m_nCameraID width height = POA_OK then [] else
        ["set resolution failed, error code: " ++
          sdk.POAGetErrorString (sdk.POASetImageSize c.m_nCameraID width height)])) ∧
    ((c.setImageFormat sdk fmt).log =
      (if sdk.POASetImageFormat c.m_nCameraID (toPOAImgFormat fmt) = POA_OK then [] else
        ["set image format failed, error code: " ++
          sdk.POAGetErrorString
            (sdk.POASetImageFormat c.m_nCameraID (toPOAImgFormat fmt))])) ∧
    ((c.setROIArea sdk roi).log =
      (if sdk.POASetImageSize c.m_nCameraID roi.width roi.height = POA_OK then
        (if sdk.POASetImageStartPos c.m_nCameraID roi.startX roi.startY = POA_OK
         then [] else
          ["set start position failed, error code: " ++
            sdk.POAGetErrorString
              (sdk.POASetImageStartPos c.m_nCameraID roi.startX roi.startY)])
       else
        ["set resolution failed, error code: " ++
          sdk.POAGetErrorString
            (sdk.POASetImageSize c.m_nCameraID roi.width roi.height)])) ∧
    ((c.getROIArea sdk).log =
      ((if (sdk.POAGetImageStartPos c.m_nCameraID).1 = POA_OK then [] else
         ["get start position failed, error code: " ++
           sdk.POAGetErrorString (sdk.POAGetImageStartPos c.m_nCameraID).1]) ++
       (if (sdk.POAGetImageSize c.m_nCameraID).1 = POA_OK then [] else
         ["get resolution failed, error code: " ++
           sdk.POAGetErrorString (sdk.POAGetImageSize c.m_nCameraID).1]))) ∧
    ((sdk.POAGetConfigsCount c.m_nCameraID).1 ≠ POA_OK →
      (c.getAllConfigAttributes sdk).log =
        ["Get config count failed！, error code: " ++
          sdk.POAGetErrorString (sdk.POAGetConfigsCount c.m_nCameraID).1]) ∧
    ((sdk.POAGetConfigsCount c.m_nCameraID).1 = POA_OK →
      ∀ i, i < (sdk.POAGetConfigsCount c.m_nCameraID).2 →
        (sdk.POAGetConfigAttributes c.m_nCameraID i).1 ≠ POA_OK →
        attrFailMsg sdk i (sdk.POAGetConfigAttributes c.m_nCameraID i).1 ∈
          (c.getAllConfigAttributes sdk).log) ∧
    (c.isImgDataAvailable sdk).log = [] ∧
    (c.getImageData sdk size).log = (c.getExposure sdk).log ∧
    (POACamera.getALLCameraIDName sdk).2.2 = [] := by
  refine ⟨?_, ?_, ?_, ?_, ?_, ?_, ?_, ?_, ?_, ?_, ?_, ?_, ?_, ?_, ?_, ?_, ?_,
    ?_, rfl, rfl⟩
  · by_cases h : sdk.POAOpenCamera c.m_nCameraID = POA_OK <;>
      simp [POACamera.openCamera, h]
  · by_cases h : sdk.POAInitCamera c.m_nCameraID = POA_OK <;>
      simp [POACamera.initCamera, h]
  · by_cases h : sdk.POASetImageStartPos c.m_nCameraID startX startY = POA_OK <;>
      simp [POACamera.setImageStartPos, h]
  · by_cases h : sdk.POASetConfig c.m_nCameraID POA_EXPOSURE expoUs
        (if isAuto then POA_TRUE else POA_FALSE) = POA_OK <;>
      simp [POACamera.setExposure, h]
  · by_cases h : sdk.POASetConfig c.m_nCameraID POA_GAIN gain
        (if isAuto then POA_TRUE else POA_FALSE) = POA_OK <;>
      simp [POACamera.setGain, h]
  · by_cases h : sdk.POAStartExposure c.m_nCameraID POA_FALSE = POA_OK <;>
      simp [POACamera.startExposure, h]
  · by_cases h : sdk.POAStopExposure c.m_nCameraID = POA_OK <;>
      simp [POACamera.stopExposure, h]
  · by_cases h : sdk.POACloseCamera c.m_nCameraID = POA_OK <;>
      simp [POACamera.closeCamera, h]
  · by_cases h : (sdk.POAGetConfig c.m_nCameraID POA_EXPOSURE).1 = POA_OK <;>
      simp [POACamera.getExposure, h]
  · by_cases h : (sdk.POAGetConfig c.m_nCameraID POA_GAIN).1 = POA_OK <;>
      simp [POACamera.getGain, h]
  · by_cases h : (sdk.POAGetImageFormat c.m_nCameraID).1 = POA_OK <;>
      simp [POACamera.getImageFormat, h]
  · by_cases h : sdk.POASetImageSize c.m_nCameraID width height = POA_OK <;>
      simp [POACamera.setImageSize, h]
  · by_cases h : sdk.POASetImageFormat c.m_nCameraID (toPOAImgFormat fmt) = POA_OK <;>
      simp [POACamera.setImageFormat, h]
  · by_cases h1 : sdk.POASetImageSize c.m_nCameraID roi.width roi.height = POA_OK <;>
      by_cases h2 : sdk.POASetImageStartPos c.m_nCameraID roi.startX roi.startY
        = POA_OK <;>
      simp [POACamera.setROIArea, h1, h2]
  · by_cases h1 : (sdk.POAGetImageStartPos c.m_nCameraID).1 = POA_OK <;>
      by_cases h2 : (sdk.POAGetImageSize c.m_nCameraID).1 = POA_OK <;>
      simp [POACamera.getROIArea, h1, h2]
  · intro h
    simp [POACamera.getAllConfigAttributes, h]
  · intro h i hi herr
    simpa [POACamera.getAllConfigAttributes, h] using
      attrLoop_msg_mem sdk c.m_nCameraID (sdk.POAGetConfigsCount c.m_nCameraID).2
        i hi herr
  · by_cases h : (sdk.POAImageReady c.m_nCameraID).1 = POA_OK <;>
      simp [POACamera.isImgDataAvailable, h]

/-- C1 amended claim evaluated on concrete failing oracles: the reporting
sites print their `POAGetErrorString`-built message, the silent sites stay
silent. -/
theorem c1_amended_witness :
    attrFailMsg sdkFail 0 (sdkFail.POAGetConfigAttributes 0 0).1 ∈
      (POACamera.getAllConfigAttributes sdkFail cam0).log ∧
    (POACamera.getAllConfigAttributes sdkDown cam0).log =
      ["Get config count failed！, error code: E2"] ∧
    (POACamera.openCamera sdkFail cam0).log =
      ["Open camera failed！, error code: E"] := by
  have h := c1_amended_error_printing sdkFail cam0 ROIArea.mkZero
    0 0 0 0 0 0 ImageFormat.RAW8 0 false
  have h2 := c1_amended_error_printing sdkDown cam0 ROIArea.mkZero
    0 0 0 0 0 0 ImageFormat.RAW8 0 false
  refine ⟨?_, ?_, ?_⟩
  · exact h.2.2.2.2.2.2.2.2.2.2.2.2.2.2.2.2.1 rfl 0 (by decide) (by decide)
  · exact (h2.2.2.2.2.2.2.2.2.2.2.2.2.2.2.2.1 (by decide)).trans (by decide)
  · exact h.1.trans (by decide)

/-- Every camera-ID argument appearing in a list of SDK calls is the
object's stored `m_nCameraID`. -/
def forwardsID (calls : List SDKCall) (c : POACamera) : Prop :=
  ∀ call ∈ calls, ∀ i, call.camArg = some i → i = c.m_nCameraID

/-- Every call performed by the attribute loop carries the given camera
id. -/
theorem attrLoop_calls_cam (sdk : SDK) (camID : Int) :
    ∀ n, ∀ call ∈ (attrLoop sdk camID n).1, ∀ i, call.camArg = some i → i = camID
  | 0 => by intro call hc; simp [attrLoop] at hc
  | n + 1 => by
    intro call hc i hi
    simp [attrLoop] at hc
    rcases hc with hc | rfl
    · exact attrLoop_calls_cam sdk camID n call hc i hi
    · simp [SDKCall.camArg] at hi; omega

/-- C7: every `POACamera` operation other than `setCameraID` and the
constructors leaves `m_nCameraID` unchanged, passes `m_nCameraID` verbatim
as the camera-ID argument of every SDK call it makes, and `m_nCameraID`
determines the whole object (it is the only instance state). -/
theorem c7_camera_id_forwarding (sdk : SDK) (c : POACamera) (roi : ROIArea)
    (width height startX startY expoUs gain : Int) (fmt : ImageFormat)
    (size : Nat) (isAuto : Bool) :
    ((c.openCamera sdk).self = c ∧ forwardsID (c.openCamera sdk).calls c) ∧
    ((c.initCamera sdk).self = c ∧ forwardsID (c.initCamera sdk).calls c) ∧
    ((c.getAllConfigAttributes sdk).self = c ∧
      forwardsID (c.getAllConfigAttributes sdk).calls c) ∧
    ((c.setROIArea sdk roi).self = c ∧ forwardsID (c.setROIArea sdk roi).calls c) ∧
    ((c.getROIArea sdk).self = c ∧ forwardsID (c.getROIArea sdk).calls c) ∧
    ((c.setImageSize sdk width height).self = c ∧
      forwardsID (c.setImageSize sdk width height).calls c) ∧
    ((c.setImageStartPos sdk startX startY).self = c ∧
      forwardsID (c.setImageStartPos sdk startX startY).calls c) ∧
    ((c.setImageFormat sdk fmt).self = c ∧
      forwardsID (c.setImageFormat sdk fmt).calls c) ∧
    ((c.getImageFormat sdk).self = c ∧ forwardsID (c.getImageFormat sdk).calls c) ∧
    ((c.setExposure sdk expoUs isAuto).self = c ∧
      forwardsID (c.setExposure sdk expoUs isAuto).calls c) ∧
    ((c.getExposure sdk).self = c ∧ forwardsID (c.getExposure sdk).calls c) ∧
    ((c.setGain sdk gain isAuto).self = c ∧
      forwardsID (c.setGain sdk gain isAuto).calls c) ∧
    ((c.getGain sdk).self = c ∧ forwardsID (c.getGain sdk).calls c) ∧
    ((c.startExposure sdk).self = c ∧ forwardsID (c.startExposure sdk).calls c) ∧
    ((c.isImgDataAvailable sdk).self = c ∧
      forwardsID (c.isImgDataAvailable sdk).calls c) ∧
    ((c.getImageData sdk size).self = c ∧
      forwardsID (c.getImageData sdk size).calls c) ∧
    ((c.stopExposure sdk).self = c ∧ forwardsID (c.stopExposure sdk).calls c) ∧
    ((c.closeCamera sdk).self = c ∧ forwardsID (c.closeCamera sdk).calls c) ∧
    ((c.getCameraID sdk).self = c ∧ (c.getCameraID sdk).ret = c.m_nCameraID ∧
      (c.getCameraID sdk).calls = []) ∧
    (∀ a b : POACamera, a = b ↔ a.m_nCameraID = b.m_nCameraID) := by
  refine ⟨⟨rfl, ?_⟩, ⟨rfl, ?_⟩, ⟨?_, ?_⟩, ⟨?_, ?_⟩, ⟨rfl, ?_⟩, ⟨rfl, ?_⟩,
    ⟨rfl, ?_⟩, ⟨rfl, ?_⟩, ⟨rfl, ?_⟩, ⟨rfl, ?_⟩, ⟨?_, ?_⟩, ⟨rfl, ?_⟩, ⟨?_, ?_⟩,
    ⟨rfl, ?_⟩, ⟨?_, ?_⟩, ⟨rfl, ?_⟩, ⟨rfl, ?_⟩, ⟨rfl, ?_⟩, ⟨rfl, rfl, rfl⟩, ?_⟩
  · intro call hc i hi
    simp [POACamera.openCamera] at hc
    subst hc; simp [SDKCall.camArg] at hi; omega
  · intro call hc i hi
    simp [POACamera.initCamera] at hc
    subst hc; simp [SDKCall.camArg] at hi; omega
  · by_cases h : (sdk.POAGetConfigsCount c.m_nCameraID).1 = POA_OK <;>
      simp [POACamera.getAllConfigAttributes, h]
  · intro call hc i hi
    by_cases h : (sdk.POAGetConfigsCount c.m_nCameraID).1 = POA_OK <;>
      simp [POACamera.getAllConfigAttributes, h] at hc
    · rcases hc with rfl | hc
      · simp [SDKCall.camArg] at hi; omega
      · exact attrLoop_calls_cam sdk c.m_nCameraID _ call hc i hi
    · subst hc; simp [SDKCall.camArg] at hi; omega
  · by_cases hs : (sdk.POAGetCameraState c.m_nCameraID).2 = STATE_EXPOSING <;>
      by_cases he : sdk.POASetImageSize c.m_nCameraID roi.width roi.height
        = POA_OK <;>
      simp [POACamera.setROIArea, hs, he]
  · intro call hc i hi
    by_cases hs : (sdk.POAGetCameraState c.m_nCameraID).2 = STATE_EXPOSING <;>
      by_cases he : sdk.POASetImageSize c.m_nCameraID roi.width roi.height
        = POA_OK <;>
      simp [POACamera.setROIArea, hs, he] at hc <;>
      rcases hc with rfl | rfl | rfl | rfl <;>
      simp [SDKCall.camArg] at hi <;> omega
  · intro call hc i hi
    simp [POACamera.getROIArea] at hc
    rcases hc with rfl | rfl <;> simp [SDKCall.camArg] at hi <;> omega
  · intro call hc i hi
    by_cases hs : (sdk.POAGetCameraState c.m_nCameraID).2 = STATE_EXPOSING <;>
      simp [POACamera.setImageSize, hs] at hc <;>
      rcases hc with rfl | rfl | rfl <;>
      simp [SDKCall.camArg] at hi <;> omega
  · intro call hc i hi
    simp [POACamera.setImageStartPos] at hc
    subst hc; simp [SDKCall.camArg] at hi; omega
  · intro call hc i hi
    by_cases hs : (sdk.POAGetCameraState c.m_nCameraID).2 = STATE_EXPOSING <;>
      simp [POACamera.setImageFormat, hs] at hc <;>
      rcases hc with rfl | rfl | rfl <;>
      simp [SDKCall.camArg] at hi <;> omega
  · intro call hc i hi
    simp [POACamera.getImageFormat] at hc
    subst hc; simp [SDKCall.camArg] at hi; omega
  · intro call hc i hi
    simp [POACamera.setExposure] at hc
    subst hc; simp [SDKCall.camArg] at hi; omega
  · by_cases h : (sdk.POAGetConfig c.m_nCameraID POA_EXPOSURE).1 = POA_OK <;>
      simp [POACamera.getExposure, h]
  · intro call hc i hi
    by_cases h : (sdk.POAGetConfig c.m_nCameraID POA_EXPOSURE).1 = POA_OK <;>
      simp [POACamera.getExposure, h] at hc <;>
      subst hc <;> simp [SDKCall.camArg] at hi <;> omega
  · intro call hc i hi
    simp [POACamera.setGain] at hc
    subst hc; simp [SDKCall.camArg] at hi; omega
  · by_cases h : (sdk.POAGetConfig c.m_nCameraID POA_GAIN).1 = POA_OK <;>
      simp [POACamera.getGain, h]
  · intro call hc i hi
    by_cases h : (sdk.POAGetConfig c.m_nCameraID POA_GAIN).1 = POA_OK <;>
      simp [POACamera.getGain, h] at hc <;>
      subst hc <;> simp [SDKCall.camArg] at hi <;> omega
  · intro call hc i hi
    simp [POACamera.startExposure] at hc
    subst hc; simp [SDKCall.camArg] at hi; omega
  · by_cases h : (sdk.POAImageReady c.m_nCameraID).1 = POA_OK <;>
      simp [POACamera.isImgDataAvailable, h]
  · intro call hc i hi
    by_cases h : (sdk.POAImageReady c.m_nCameraID).1 = POA_OK <;>
      simp [POACamera.isImgDataAvailable, h] at hc <;>
      subst hc <;> simp [SDKCall.camArg] at hi <;> omega
  · intro call hc i hi
    by_cases h : (sdk.POAGetConfig c.m_nCameraID POA_EXPOSURE).1 = POA_OK <;>
      simp [POACamera.getImageData, POACamera.getExposure, h] at hc <;>
      rcases hc with rfl | rfl <;>
      simp [SDKCall.camArg] at hi <;> omega
  · intro call hc i hi
    simp [POACamera.stopExposure] at hc
    subst hc; simp [SDKCall.camArg] at hi; omega
  · intro call hc i hi
    simp [POACamera.closeCamera] at hc
    subst hc; simp [SDKCall.camArg] at hi; omega
  · intro a b
    constructor
    · intro h; rw [h]
    · intro h; cases a; cases b; simpa using h

/-- C7 evaluated at a concrete oracle and camera: the state is unchanged
and the camera-ID argument of the performed call is the stored id. -/
theorem c7_witness :
    (POACamera.openCamera sdkOK cam0).self = cam0 ∧ (0 : Int) = cam0.m_nCameraID := by
  have h := c7_camera_id_forwarding sdkOK cam0 ROIArea.mkZero
    0 0 0 0 0 0 ImageFormat.RAW8 0 false
  exact ⟨h.1.1, h.1.2 (SDKCall.openCamera 0) (by decide) 0 (by decide)⟩

/-- Status returned by `POAGetCameraProperties` for device index `i`. -/
def propStatus (sdk : SDK) (i : Nat) : POAErrors := (sdk.POAGetCameraProperties i).1

/-- Camera id reported by `POAGetCameraProperties` for device index `i`. -/
def propID (sdk : SDK) (i : Nat) : Int := (sdk.POAGetCameraProperties i).2.cameraID

/-- Model name reported by `POAGetCameraProperties` for device index `i`. -/
def propName (sdk : SDK) (i : Nat) : String :=
  (sdk.POAGetCameraProperties i).2.cameraModelName

/-- Everything in `mapInsert k v m` was in `m` or is the inserted pair. -/
theorem mem_of_mem_mapInsert {q : Int × String} {k : Int} {v : String} :
    ∀ {m : List (Int × String)}, q ∈ mapInsert k v m → q ∈ m ∨ q = (k, v)
  | [], h => Or.inr (by simpa [mapInsert] using h)
  | (k2, v2) :: rest, h => by
    by_cases h1 : k < k2
    · simp [mapInsert, h1] at h
      rcases h with rfl | rfl | h
      · exact Or.inr rfl
      · exact Or.inl (by simp)
      · exact Or.inl (by simp [h])
    · by_cases h2 : k = k2
      · simp [mapInsert, h1, h2] at h
        exact Or.inl (by simpa using h)
      · simp [mapInsert, h1, h2] at h
        rcases h with rfl | h
        · exact Or.inl (by simp)
        · rcases mem_of_mem_mapInsert h with h | h
          · exact Or.inl (by simp [h])
          · exact Or.inr h

/-- `mapInsert` keeps every existing entry. -/
theorem mem_mapInsert_of_mem {q : Int × String} {k : Int} {v : String} :
    ∀ {m : List (Int × String)}, q ∈ m → q ∈ mapInsert k v m
  | [], h => by simp at h
  | (k2, v2) :: rest, h => by
    by_cases h1 : k < k2
    · simp [mapInsert, h1]
      rcases List.mem_cons.mp h with rfl | h
      · simp
      · simp [h]
    · by_cases h2 : k = k2
      · simpa [mapInsert, h1, h2] using h
      · simp only [mapInsert, if_neg h1, if_neg h2]
        rcases List.mem_cons.mp h with rfl | h
        · simp
        · exact List.mem_cons_of_mem _ (mem_mapInsert_of_mem h)

/-- `mapInsert` adds the pair when its key is absent. -/
theorem mem_mapInsert_self {k : Int} {v : String} :
    ∀ {m : List (Int × String)}, (∀ v2, (k, v2) ∉ m) → (k, v) ∈ mapInsert k v m
  | [], _ => by simp [mapInsert]
  | (k2, v2) :: rest, habs => by
    by_cases h1 : k < k2
    · simp [mapInsert, h1]
    · by_cases h2 : k = k2
      · exact absurd (h2 ▸ List.mem_cons_self _ _) (habs v2)
      · simp only [mapInsert, if_neg h1, if_neg h2]
        exact List.mem_cons_of_mem _
          (mem_mapInsert_self (fun v3 hv3 => habs v3 (List.mem_cons_of_mem _ hv3)))

/-- Every entry of the enumeration loop's map comes from a successful
device index below the bound. -/
theorem camEnumLoop_sound (sdk : SDK) {a : Int} {b : String} :
    ∀ {n : Nat}, (a, b) ∈ (camEnumLoop sdk n).1 →
      ∃ i, i < n ∧ propStatus sdk i = POA_OK ∧ propID sdk i = a ∧ propName sdk i = b
  | 0, h => by simp [camEnumLoop] at h
  | n + 1, h => by
    by_cases hok : (sdk.POAGetCameraProperties n).1 = POA_OK
    · simp only [camEnumLoop, ne_eq, hok, not_true_eq_false, if_false] at h
      rcases mem_of_mem_mapInsert h with h | h
      · obtain ⟨i, hi, h1, h2, h3⟩ := camEnumLoop_sound sdk h
        exact ⟨i, Nat.lt_succ_of_lt hi, h1, h2, h3⟩
      · refine ⟨n, Nat.lt_succ_self n, hok, ?_, ?_⟩ <;>
          simp [Prod.ext_iff] at h <;>
          simp [propID, propName, h.1, h.2]
    · simp only [camEnumLoop, ne_eq, hok, not_false_eq_true, if_true] at h
      obtain ⟨i, hi, h1, h2, h3⟩ := camEnumLoop_sound sdk h
      exact ⟨i, Nat.lt_succ_of_lt hi, h1, h2, h3⟩

/-- When the successful device indices report pairwise distinct camera
ids, every successful index below the bound contributes its entry. -/
theorem camEnumLoop_complete (sdk : SDK) :
    ∀ {n : Nat},
      (∀ i j, i < n → j < n → propStatus sdk i = POA_OK →
        propStatus sdk j = POA_OK → propID sdk i = propID sdk j → i = j) →
      ∀ i, i < n → propStatus sdk i = POA_OK →
        (propID sdk i, propName sdk i) ∈ (camEnumLoop sdk n).1
  | 0, _, i, hi, _ => absurd hi (Nat.not_lt_zero i)
  | n + 1, hinj, i, hi, hok => by
    have hstep : (camEnumLoop sdk (n + 1)).1 =
        (if (sdk.POAGetCameraProperties n).1 ≠ POA_OK then (camEnumLoop sdk n).1
         else mapInsert (propID sdk n) (propName sdk n) (camEnumLoop sdk n).1) := rfl
    rcases Nat.lt_succ_iff_lt_or_eq.mp hi with h | h
    · have hmem := camEnumLoop_complete sdk
        (fun i2 j hi2 hj => hinj i2 j (Nat.lt_succ_of_lt hi2) (Nat.lt_succ_of_lt hj))
        i h hok
      rw [hstep]
      by_cases hn : (sdk.POAGetCameraProperties n).1 = POA_OK
      · simpa [hn] using mem_mapInsert_of_mem hmem
      · simpa [hn] using hmem
    · subst h
      rw [hstep]
      have hn : (sdk.POAGetCameraProperties i).1 = POA_OK := hok
      simp only [ne_eq, hn, not_true_eq_false, if_false]
      refine mem_mapInsert_self ?_
      intro v2 hv2
      obtain ⟨j, hj, hjok, hjid, _⟩ := camEnumLoop_sound sdk hv2
      exact absurd (hinj j i (Nat.lt_succ_of_lt hj) (Nat.lt_succ_self i)
        hjok hok hjid) (Nat.ne_of_lt hj)

/-- C10 counterexample: on an oracle reporting two devices that both
succeed but share camera id 7 (names `"A"` and `"B"`), the map holds only
index 0's entry — index 1 succeeded yet `(7, "B")` is absent, because
`std::map::insert` does not overwrite an existing key. -/
theorem c10_counterexample :
    (POACamera.getALLCameraIDName sdkDup).1 = [(7, "A")] ∧
    propStatus sdkDup 1 = POA_OK ∧ propID sdkDup 1 = 7 ∧
    propName sdkDup 1 = "B" ∧ sdkDup.POAGetCameraCount = 2 ∧
    ((7 : Int), "B") ∉ (POACamera.getALLCameraIDName sdkDup).1 := by
  refine ⟨rfl, rfl, rfl, rfl, rfl, by decide⟩

/-- C10 (amended): `getALLCameraIDName` prints nothing and returns the
empty map when the camera count is zero; and provided the successful
device indices report pairwise distinct camera ids, the map contains
`(cameraID, cameraModelName)` for exactly the indices in
`[0, POAGetCameraCount)` whose properties call succeeds (with duplicate
ids, only the first index's entry is kept). -/
theorem c10_amended_enumeration (sdk : SDK) :
    (POACamera.getALLCameraIDName sdk).2.2 = [] ∧
    (sdk.POAGetCameraCount = 0 → (POACamera.getALLCameraIDName sdk).1 = []) ∧
    ((∀ i j, i < sdk.POAGetCameraCount → j < sdk.POAGetCameraCount →
        propStatus sdk i = POA_OK → propStatus sdk j = POA_OK →
        propID sdk i = propID sdk j → i = j) →
      ∀ a b, ((a, b) ∈ (POACamera.getALLCameraIDName sdk).1 ↔
        ∃ i, i < sdk.POAGetCameraCount ∧ propStatus sdk i = POA_OK ∧
          propID sdk i = a ∧ propName sdk i = b)) := by
  refine ⟨rfl, ?_, ?_⟩
  · intro h
    simp [POACamera.getALLCameraIDName, h, camEnumLoop]
  · intro hinj a b
    constructor
    · intro h
      exact camEnumLoop_sound sdk h
    · rintro ⟨i, hi, hok, rfl, rfl⟩
      exact camEnumLoop_complete sdk hinj i hi hok

/-- C10 amended claim evaluated concretely: with one succeeding device of
id 0 the map holds exactly its entry, and with zero devices it is empty. -/
theorem c10_amended_witness :
    ((0 : Int), "Camera") ∈ (POACamera.getALLCameraIDName sdkOK).1 ∧
    (POACamera.getALLCameraIDName sdkEmpty).1 = [] := by
  constructor
  · exact ((c10_amended_enumeration sdkOK).2.2
      (fun i j hi hj _ _ _ => by
        rw [show sdkOK.POAGetCameraCount = 1 from rfl] at hi hj; omega)
      0 "Camera").mpr ⟨0, by decide, rfl, rfl, rfl⟩
  · exact (c10_amended_enumeration sdkEmpty).2.1 rfl

/-- The poll loop makes at least one call; its last call sees the flag
true and every earlier call saw it false: the loop exits only because the
flag became true. -/
theorem pollLoop_spec (avail : Nat → Bool) :
    ∀ fuel t n, pollLoop avail fuel t = some n →
      1 ≤ n ∧ avail (t + (n - 1)) = true ∧ ∀ j, j + 1 < n → avail (t + j) = false
  | 0, t, n, h => by simp [pollLoop] at h
  | fuel + 1, t, n, h => by
    by_cases ha : avail t
    · simp [pollLoop, ha] at h
      subst h
      exact ⟨Nat.le_refl 1, by simpa using ha, fun j hj => absurd hj (by omega)⟩
    · simp [pollLoop, ha] at h
      obtain ⟨m, hm, rfl⟩ := h
      obtain ⟨h1, h2, h3⟩ := pollLoop_spec avail fuel (t + 1) m hm
      refine ⟨by omega, ?_, ?_⟩
      · rwa [show t + (m + 1 - 1) = t + 1 + (m - 1) by omega]
      · intro j hj
        cases j with
        | zero => simpa using ha
        | succ jj =>
          rw [show t + (jj + 1) = t + 1 + jj by omega]
          exact h3 jj (by omega)

/-- If the ready flag never becomes true, the poll loop never exits, no
matter how long it is observed: there is no timeout or cancellation. -/
theorem pollLoop_none (avail : Nat → Bool) :
    ∀ fuel t, (∀ j, avail (t + j) = false) → pollLoop avail fuel t = none
  | 0, _, _ => rfl
  | fuel + 1, t, h => by
    have h0 : avail t = false := by simpa using h 0
    have hrec := pollLoop_none avail fuel (t + 1)
      (fun j => by have := h (j + 1); rwa [show t + (j + 1) = t + 1 + j by omega] at this)
    simp [pollLoop, h0, hrec]

/-- `persistsOf` distributes over append. -/
theorem persistsOf_append (xs ys : List MainEvent) :
    persistsOf (xs ++ ys) = persistsOf xs ++ persistsOf ys :=
  List.filterMap_append xs ys _

/-- Poll events carry no file write. -/
theorem persistsOf_replicate_poll :
    ∀ n, persistsOf (List.replicate n MainEvent.poll) = []
  | 0 => rfl
  | n + 1 => by
    simpa [List.replicate_succ, persistsOf] using persistsOf_replicate_poll n

/-- A fetch event contributes no file write. -/
theorem persistsOf_cons_fetch (sz : Nat) (l : List MainEvent) :
    persistsOf (MainEvent.fetch sz :: l) = persistsOf l := rfl

/-- A persist event contributes its file write. -/
theorem persistsOf_cons_persist (name : String) (sz : Nat) (l : List MainEvent) :
    persistsOf (MainEvent.persist name sz :: l) = ⟨name, (sz : Int)⟩ :: persistsOf l :=
  rfl

/-- `countdown` has as many entries as its starting value. -/
theorem countdown_length : ∀ n, (countdown n).length = n
  | 0 => rfl
  | n + 1 => by simp [countdown, countdown_length n]

/-- The file writes of a finished C++ capture loop started at counter
`cout` are exactly `<cout>_raw8_image_data.bin` down to
`1_raw8_image_data.bin`, each of the allocated buffer's 800*480 bytes. -/
theorem cppCapture_persists (avail fetchOk : Nat → Bool) :
    ∀ fuel t k cout evs, cppCapture avail fetchOk fuel t k cout = some evs →
      persistsOf evs =
        (countdown cout).map (fun n => ⟨cppFileName n, (cppBufferSize : Int)⟩)
  | 0, t, k, cout, evs, h => by
    cases cout with
    | zero =>
      simp [cppCapture] at h
      subst h; rfl
    | succ c => simp [cppCapture] at h
  | fuel + 1, t, k, cout, evs, h => by
    cases cout with
    | zero =>
      simp [cppCapture] at h
      subst h; rfl
    | succ c =>
      rw [cppCapture] at h
      rcases hp : pollLoop avail (fuel + 1) t with _ | n <;> rw [hp] at h
      · simp at h
      · by_cases hf : fetchOk k <;> simp only [hf, if_true, if_false] at h
        · rcases ho : cppCapture avail fetchOk fuel (t + n) (k + 1) c with _ | rest <;>
            rw [ho] at h <;> simp at h
          subst h
          have ih := cppCapture_persists avail fetchOk fuel (t + n) (k + 1) c rest ho
          rw [persistsOf_append, persistsOf_replicate_poll, persistsOf_cons_fetch,
            persistsOf_cons_persist, ih]
          simp [countdown]
        · rcases ho : cppCapture avail fetchOk fuel (t + n) (k + 1) (c + 1) with _ | rest <;>
            rw [ho] at h <;> simp at h
          subst h
          have ih := cppCapture_persists avail fetchOk fuel (t + n) (k + 1) (c + 1) rest ho
          rw [persistsOf_append, persistsOf_replicate_poll, persistsOf_cons_fetch, ih]
          simp

/-- The file writes of a finished C capture loop started at counter `cout`
are exactly `<cout>_raw16_image_data.bin` down to
`1_raw16_image_data.bin`, each of `buffer_size` bytes. -/
theorem cCapture_writes (bufferSize : Int) (avail fetchOk : Nat → Bool) :
    ∀ fuel t k cout ws, cCapture bufferSize avail fetchOk fuel t k cout = some ws →
      ws = (countdown cout).map (fun n => ⟨cFileName n, bufferSize⟩)
  | 0, t, k, cout, ws, h => by
    cases cout with
    | zero =>
      simp [cCapture] at h
      subst h; rfl
    | succ c => simp [cCapture] at h
  | fuel + 1, t, k, cout, ws, h => by
    cases cout with
    | zero =>
      simp [cCapture] at h
      subst h; rfl
    | succ c =>
      rw [cCapture] at h
      rcases hp : pollLoop avail (fuel + 1) t with _ | n <;> rw [hp] at h
      · simp at h
      · by_cases hf : fetchOk k <;> simp only [hf, if_true, if_false] at h
        · rcases ho : cCapture bufferSize avail fetchOk fuel (t + n) (k + 1) c
              with _ | rest <;> rw [ho] at h <;> simp at h
          subst h
          have ih := cCapture_writes bufferSize avail fetchOk fuel (t + n) (k + 1) c rest ho
          simp [countdown, ih]
        · exact cCapture_writes bufferSize avail fetchOk fuel (t + n) (k + 1) (c + 1) ws h

/-- C5: a finished run of the C++ example's capture loop (counter 10)
writes exactly the raw, header-less files `10_raw8_image_data.bin` down to
`1_raw8_image_data.bin`, each of 800*480 = 384000 bytes; in general the
writes count down from the starting counter, and the C example's loop
likewise writes `<counter>_raw16_image_data.bin` files of `buffer_size`
bytes, which instantiated at the C main's buffer is `width * height * 2`. -/
theorem c5_output_files :
    (∀ avail fetchOk fuel t k evs,
      cppCapture avail fetchOk fuel t k 10 = some evs →
      persistsOf evs =
        [⟨"10_raw8_image_data.bin", 384000⟩, ⟨"9_raw8_image_data.bin", 384000⟩,
         ⟨"8_raw8_image_data.bin", 384000⟩, ⟨"7_raw8_image_data.bin", 384000⟩,
         ⟨"6_raw8_image_data.bin", 384000⟩, ⟨"5_raw8_image_data.bin", 384000⟩,
         ⟨"4_raw8_image_data.bin", 384000⟩, ⟨"3_raw8_image_data.bin", 384000⟩,
         ⟨"2_raw8_image_data.bin", 384000⟩, ⟨"1_raw8_image_data.bin", 384000⟩]) ∧
    (∀ cout avail fetchOk fuel t k evs,
      cppCapture avail fetchOk fuel t k cout = some evs →
      persistsOf evs =
        (countdown cout).map (fun n => ⟨cppFileName n, (cppBufferSize : Int)⟩)) ∧
    (∀ w0 h0 avail fetchOk fuel t k cout ws,
      cCapture (cBufferSize w0 h0) avail fetchOk fuel t k cout = some ws →
      ws = (countdown cout).map
        (fun n => ⟨cFileName n, cWidth w0 * cHeight h0 * 2⟩)) := by
  refine ⟨?_, ?_, ?_⟩
  · intro avail fetchOk fuel t k evs h
    rw [cppCapture_persists avail fetchOk fuel t k 10 evs h]
    rfl
  · intro cout avail fetchOk fuel t k evs h
    exact cppCapture_persists avail fetchOk fuel t k cout evs h
  · intro w0 h0 avail fetchOk fuel t k cout ws h
    exact cCapture_writes (cBufferSize w0 h0) avail fetchOk fuel t k cout ws h

/-- C5 evaluated on a concrete run: with the flag always ready and every
fetch succeeding, ten files are written, named `10_raw8_image_data.bin`
down to `1_raw8_image_data.bin`. -/
theorem c5_witness :
    persistsOf ((cppCapture (fun _ => true) (fun _ => true) 10 0 0 10).getD []) =
      [⟨"10_raw8_image_data.bin", 384000⟩, ⟨"9_raw8_image_data.bin", 384000⟩,
       ⟨"8_raw8_image_data.bin", 384000⟩, ⟨"7_raw8_image_data.bin", 384000⟩,
       ⟨"6_raw8_image_data.bin", 384000⟩, ⟨"5_raw8_image_data.bin", 384000⟩,
       ⟨"4_raw8_image_data.bin", 384000⟩, ⟨"3_raw8_image_data.bin", 384000⟩,
       ⟨"2_raw8_image_data.bin", 384000⟩, ⟨"1_raw8_image_data.bin", 384000⟩] :=
  c5_output_files.1 (fun _ => true) (fun _ => true) 10 0 0 _ rfl

/-- C3: the inner poll loop exits only because the ready flag became true
(at least one poll, last one true, all earlier ones false), and never
exits — under any observation bound — when the flag stays false; the outer
loop's guard is exactly the image counter (`0` means no iteration at all,
a positive counter forces an iteration even with no fuel left), and a
finished run performed exactly `counter` many successful fetch-and-write
passes: nothing else bounds either loop. -/
theorem c3_loop_bounds :
    (∀ (avail : Nat → Bool) fuel t n, pollLoop avail fuel t = some n →
      1 ≤ n ∧ avail (t + (n - 1)) = true ∧ ∀ j, j + 1 < n → avail (t + j) = false) ∧
    (∀ (avail : Nat → Bool) fuel t, (∀ j, avail (t + j) = false) →
      pollLoop avail fuel t = none) ∧
    (∀ (avail fetchOk : Nat → Bool) fuel t k,
      cppCapture avail fetchOk fuel t k 0 = some []) ∧
    (∀ (avail fetchOk : Nat → Bool) t k cout, 0 < cout →
      cppCapture avail fetchOk 0 t k cout = none) ∧
    (∀ (avail fetchOk : Nat → Bool) fuel t k cout evs,
      cppCapture avail fetchOk fuel t k cout = some evs →
      (persistsOf evs).length = cout) := by
  refine ⟨pollLoop_spec, pollLoop_none, ?_, ?_, ?_⟩
  · intro avail fetchOk fuel t k
    cases fuel <;> rfl
  · intro avail fetchOk t k cout hc
    cases cout with
    | zero => exact absurd hc (by omega)
    | succ c => rfl
  · intro avail fetchOk fuel t k cout evs h
    rw [cppCapture_persists avail fetchOk fuel t k cout evs h]
    simp [countdown_length]

/-- C3 evaluated concretely: an always-false flag keeps the poll loop
spinning past any bound, an always-true flag exits after exactly one poll
that saw the flag true, a zero counter skips the loop, and a positive
counter with exhausted fuel has not terminated. -/
theorem c3_witness :
    pollLoop (fun _ => false) 5 0 = none ∧
    (1 ≤ 1 ∧ (fun _ => true) (0 + (1 - 1)) = true ∧
      ∀ j, j + 1 < 1 → (fun _ => true) (0 + j) = false) ∧
    cppCapture (fun _ => true) (fun _ => true) 3 0 0 0 = some [] ∧
    cppCapture (fun _ => true) (fun _ => true) 0 0 0 7 = none ∧
    (persistsOf ((cppCapture (fun _ => true) (fun _ => true) 10 0 0 10).getD [])).length
      = 10 := by
  refine ⟨?_, ?_, ?_, ?_, ?_⟩
  · exact c3_loop_bounds.2.1 (fun _ => false) 5 0 (fun _ => rfl)
  · exact c3_loop_bounds.1 (fun _ => true) 1 0 1 rfl
  · exact c3_loop_bounds.2.2.1 (fun _ => true) (fun _ => true) 3 0 0
  · exact c3_loop_bounds.2.2.2.1 (fun _ => true) (fun _ => true) 0 0 7 (by omega)
  · exact c3_loop_bounds.2.2.2.2 (fun _ => true) (fun _ => true) 10 0 0 10 _ rfl

/-- Every fetch and every file write the C++ capture loop performs uses
the one allocated buffer size. -/
theorem cppCapture_sizes (avail fetchOk : Nat → Bool) :
    ∀ fuel t k cout evs, cppCapture avail fetchOk fuel t k cout = some evs →
      ∀ e ∈ evs, (∀ sz, e = MainEvent.fetch sz → sz = cppBufferSize) ∧
        (∀ nm sz, e = MainEvent.persist nm sz → sz = cppBufferSize)
  | 0, t, k, cout, evs, h => by
    cases cout with
    | zero => simp [cppCapture] at h; subst h; simp
    | succ c => simp [cppCapture] at h
  | fuel + 1, t, k, cout, evs, h => by
    cases cout with
    | zero => simp [cppCapture] at h; subst h; simp
    | succ c =>
      rw [cppCapture] at h
      rcases hp : pollLoop avail (fuel + 1) t with _ | n <;> rw [hp] at h
      · simp at h
      · by_cases hf : fetchOk k <;> simp only [hf, if_true, if_false] at h
        · rcases ho : cppCapture avail fetchOk fuel (t + n) (k + 1) c
              with _ | rest <;> rw [ho] at h <;> simp at h
          subst h
          intro e he
          simp [List.mem_append, List.mem_replicate] at he
          rcases he with ⟨_, rfl⟩ | rfl | rfl | he
          · simp
          · simp
          · simp
          · exact cppCapture_sizes avail fetchOk fuel (t + n) (k + 1) c rest ho e he
        · rcases ho : cppCapture avail fetchOk fuel (t + n) (k + 1) (c + 1)
              with _ | rest <;> rw [ho] at h <;> simp at h
          subst h
          intro e he
          simp [List.mem_append, List.mem_replicate] at he
          rcases he with ⟨_, rfl⟩ | rfl | he
          · simp
          · simp
          · exact cppCapture_sizes avail fetchOk fuel (t + n) (k + 1) (c + 1) rest ho e he

/-- C6: the C++ example's buffer is sized 800 * 480 * 1 for the RAW8
format it configures (800 and 480 being exactly the arguments of its
`setImageSize` call), and every fetch and write in its capture loop uses
that size; the C example's buffer is `width * height * 2` for RAW16, with
the same computed width and height it configures. -/
theorem c6_buffer_sizes :
    cppBufferSize = 800 * 480 * bytesPerPixel ImageFormat.RAW8 ∧
    (∀ (avail fetchOk : Nat → Bool) fuel tr,
      cppMainTrace true avail fetchOk fuel = some tr →
      MainEvent.setSize 800 480 ∈ tr ∧ MainEvent.setFmt ImageFormat.RAW8 ∈ tr ∧
      (∀ sz, MainEvent.fetch sz ∈ tr → sz = cppBufferSize) ∧
      (∀ nm sz, MainEvent.persist nm sz ∈ tr → sz = cppBufferSize)) ∧
    (∀ w0 h0 : Int, cBufferSize w0 h0 =
      cWidth w0 * cHeight h0 * (bytesPerPixelPOA POA_RAW16 : Int)) := by
  refine ⟨by norm_num [cppBufferSize, bytesPerPixel], ?_, ?_⟩
  · intro avail fetchOk fuel tr h
    simp only [cppMainTrace, if_true] at h
    rcases ho : cppCapture avail fetchOk fuel 0 0 10 with _ | L <;> rw [ho] at h <;>
      simp at h
    subst h
    have hsz := cppCapture_sizes avail fetchOk fuel 0 0 10 L ho
    refine ⟨by simp [cppSetupEvents], by simp [cppSetupEvents], ?_, ?_⟩
    · intro sz hmem
      have hL : MainEvent.fetch sz ∈ L := by simpa [cppSetupEvents] using hmem
      exact (hsz _ hL).1 sz rfl
    · intro nm sz hmem
      have hL : MainEvent.persist nm sz ∈ L := by simpa [cppSetupEvents] using hmem
      exact (hsz _ hL).2 nm sz rfl
  · intro w0 h0
    simp [cBufferSize, bytesPerPixelPOA]

/-- C6 evaluated on a concrete finished run of the C++ main. -/
theorem c6_witness :
    MainEvent.setSize 800 480 ∈
      ((cppMainTrace true (fun _ => true) (fun _ => true) 10).getD []) :=
  (c6_buffer_sizes.2.1 (fun _ => true) (fun _ => true) 10 _ rfl).1

/-- Boolean test for an event of the given pipeline stage. -/
def isStage (k : Nat) (e : MainEvent) : Bool := e.stage == k

/-- `firstIdx` over an append whose left part has no match. -/
theorem firstIdx_append_of_none {p : MainEvent → Bool} :
    ∀ {xs : List MainEvent} (ys : List MainEvent), (∀ x ∈ xs, p x = false) →
      firstIdx p (xs ++ ys) = xs.length + firstIdx p ys
  | [], ys, _ => by simp [firstIdx]
  | x :: t, ys, h => by
    have hx : p x = false := h x (by simp)
    have ht := @firstIdx_append_of_none p t ys (fun y hy => h y (by simp [hy]))
    simp [firstIdx, hx, ht]
    omega

/-- `firstIdx` over an append whose left part already matches. -/
theorem firstIdx_append_of_found {p : MainEvent → Bool} :
    ∀ {xs : List MainEvent} (ys : List MainEvent), firstIdx p xs < xs.length →
      firstIdx p (xs ++ ys) = firstIdx p xs
  | [], _, h => by simp [firstIdx] at h
  | x :: t, ys, h => by
    by_cases hx : p x
    · simp [firstIdx, hx]
    · have hlt : firstIdx p t < t.length := by
        simp [firstIdx, hx] at h
        omega
      have ht := @firstIdx_append_of_found p t ys hlt
      simp [firstIdx, hx, ht]

/-- Shape of a finished capture loop's events: only poll, fetch and
persist events occur, and — when at least one frame was requested — the
events start with a poll, the first fetch comes strictly after the first
poll, the first persist strictly after the first fetch, and a persist
occurs. -/
theorem cppCapture_shape (avail fetchOk : Nat → Bool) :
    ∀ fuel t k cout evs, cppCapture avail fetchOk fuel t k cout = some evs →
      (∀ e ∈ evs, 4 ≤ e.stage ∧ e.stage ≤ 6) ∧
      (0 < cout →
        firstIdx (isStage 4) evs = 0 ∧
        1 ≤ firstIdx (isStage 5) evs ∧
        firstIdx (isStage 5) evs < firstIdx (isStage 6) evs ∧
        firstIdx (isStage 6) evs < evs.length)
  | 0, t, k, cout, evs, h => by
    cases cout with
    | zero =>
      simp [cppCapture] at h
      subst h
      exact ⟨by simp, by omega⟩
    | succ c => simp [cppCapture] at h
  | fuel + 1, t, k, cout, evs, h => by
    cases cout with
    | zero =>
      simp [cppCapture] at h
      subst h
      exact ⟨by simp, by omega⟩
    | succ c =>
      rw [cppCapture] at h
      rcases hp : pollLoop avail (fuel + 1) t with _ | n <;> rw [hp] at h
      · simp at h
      · obtain ⟨hn1, -, -⟩ := pollLoop_spec avail (fuel + 1) t n hp
        by_cases hf : fetchOk k <;> simp only [hf, if_true, if_false] at h
        · rcases ho : cppCapture avail fetchOk fuel (t + n) (k + 1) c
              with _ | rest <;> rw [ho] at h <;> simp at h
          subst h
          obtain ⟨hstage, -⟩ := cppCapture_shape avail fetchOk fuel (t + n) (k + 1) c rest ho
          constructor
          · intro e he
            simp [List.mem_append, List.mem_replicate] at he
            rcases he with ⟨_, rfl⟩ | rfl | rfl | he
            · simp [MainEvent.stage]
            · simp [MainEvent.stage]
            · simp [MainEvent.stage]
            · exact hstage e he
          · intro _
            have hno5 : ∀ x ∈ List.replicate n MainEvent.poll, isStage 5 x = false := by
              intro x hx; rw [List.eq_of_mem_replicate hx]; rfl
            have hno6 : ∀ x ∈ List.replicate n MainEvent.poll, isStage 6 x = false := by
              intro x hx; rw [List.eq_of_mem_replicate hx]; rfl
            have h5 := firstIdx_append_of_none
              (MainEvent.fetch cppBufferSize ::
                MainEvent.persist (cppFileName (c + 1)) cppBufferSize :: rest) hno5
            have h6 := firstIdx_append_of_none
              (MainEvent.fetch cppBufferSize ::
                MainEvent.persist (cppFileName (c + 1)) cppBufferSize :: rest) hno6
            have h4 : firstIdx (isStage 4)
                (List.replicate n MainEvent.poll ++
                  (MainEvent.fetch cppBufferSize ::
                    MainEvent.persist (cppFileName (c + 1)) cppBufferSize :: rest)) = 0 := by
              obtain ⟨m, rfl⟩ : ∃ m, n = m + 1 := ⟨n - 1, by omega⟩
              rw [List.replicate_succ]
              simp [firstIdx, isStage, MainEvent.stage]
            rw [List.length_replicate] at h5 h6
            have e5 : firstIdx (isStage 5)
                (MainEvent.fetch cppBufferSize ::
                  MainEvent.persist (cppFileName (c + 1)) cppBufferSize :: rest) = 0 := rfl
            have e6 : firstIdx (isStage 6)
                (MainEvent.fetch cppBufferSize ::
                  MainEvent.persist (cppFileName (c + 1)) cppBufferSize :: rest) = 1 := rfl
            rw [e5] at h5
            rw [e6] at h6
            refine ⟨h4, ?_, ?_, ?_⟩
            · rw [h5]; omega
            · rw [h5, h6]; omega
            · rw [h6, List.length_append, List.length_replicate]
              simp only [List.length_cons]
              omega
        · rcases ho : cppCapture avail fetchOk fuel (t + n) (k + 1) (c + 1)
              with _ | rest <;> rw [ho] at h <;> simp at h
          subst h
          obtain ⟨hstage, hfi⟩ :=
            cppCapture_shape avail fetchOk fuel (t + n) (k + 1) (c + 1) rest ho
          obtain ⟨hr4, hr5, hr56, hr6len⟩ := hfi (by omega)
          constructor
          · intro e he
            simp [List.mem_append, List.mem_replicate] at he
            rcases he with ⟨_, rfl⟩ | rfl | he
            · simp [MainEvent.stage]
            · simp [MainEvent.stage]
            · exact hstage e he
          · intro _
            have hno5 : ∀ x ∈ List.replicate n MainEvent.poll, isStage 5 x = false := by
              intro x hx; rw [List.eq_of_mem_replicate hx]; rfl
            have hno6 : ∀ x ∈ List.replicate n MainEvent.poll, isStage 6 x = false := by
              intro x hx; rw [List.eq_of_mem_replicate hx]; rfl
            have h5 := firstIdx_append_of_none
              (MainEvent.fetch cppBufferSize :: rest) hno5
            have h6 := firstIdx_append_of_none
              (MainEvent.fetch cppBufferSize :: rest) hno6
            have h4 : firstIdx (isStage 4)
                (List.replicate n MainEvent.poll ++
                  (MainEvent.fetch cppBufferSize :: rest)) = 0 := by
              obtain ⟨m, rfl⟩ : ∃ m, n = m + 1 := ⟨n - 1, by omega⟩
              rw [List.replicate_succ]
              simp [firstIdx, isStage, MainEvent.stage]
            rw [List.length_replicate] at h5 h6
            have e5 : firstIdx (isStage 5) (MainEvent.fetch cppBufferSize :: rest) = 0 := rfl
            have e6 : firstIdx (isStage 6) (MainEvent.fetch cppBufferSize :: rest) =
                firstIdx (isStage 6) rest + 1 := rfl
            rw [e5] at h5
            rw [e6] at h6
            refine ⟨h4, by rw [h5]; omega, by rw [h5, h6]; omega, ?_⟩
            rw [h6, List.length_append, List.length_replicate]
            simp only [List.length_cons]
            omega

/-- C4: in every finished trace of the C++ `main` with a camera present,
the pipeline stages occur in order — the first enumeration event precedes
the first open, which precedes the first configure, start-exposure, poll,
fetch and persist events, and the close event comes last (after every
other event, exactly once, at the end). -/
theorem c4_pipeline_order (avail fetchOk : Nat → Bool) (fuel : Nat)
    (tr : List MainEvent) (h : cppMainTrace true avail fetchOk fuel = some tr) :
    (firstIdx (isStage 0) tr = 0 ∧
     firstIdx (isStage 0) tr < firstIdx (isStage 1) tr ∧
     firstIdx (isStage 1) tr < firstIdx (isStage 2) tr ∧
     firstIdx (isStage 2) tr < firstIdx (isStage 3) tr ∧
     firstIdx (isStage 3) tr < firstIdx (isStage 4) tr ∧
     firstIdx (isStage 4) tr < firstIdx (isStage 5) tr ∧
     firstIdx (isStage 5) tr < firstIdx (isStage 6) tr ∧
     firstIdx (isStage 6) tr < firstIdx (isStage 7) tr ∧
     firstIdx (isStage 7) tr < tr.length) ∧
    (∃ pre, tr = pre ++ [MainEvent.closeCam] ∧ MainEvent.closeCam ∉ pre) := by
  simp only [cppMainTrace, if_true] at h
  rcases ho : cppCapture avail fetchOk fuel 0 0 10 with _ | L <;> rw [ho] at h <;>
    simp at h
  subst h
  obtain ⟨hstages, hfi⟩ := cppCapture_shape avail fetchOk fuel 0 0 10 L ho
  obtain ⟨h4, h5, h56, h6len⟩ := hfi (by omega)
  have hLpos : 0 < L.length := by omega
  have hlen10 : cppSetupEvents.length = 10 := rfl
  have hno7L : ∀ e ∈ L, isStage 7 e = false := by
    intro e he
    have h2 := (hstages e he).2
    simp only [isStage, beq_eq_false_iff_ne, ne_eq]
    omega
  have F0 : firstIdx (isStage 0) (cppSetupEvents ++ (L ++ [MainEvent.closeCam])) = 0 := by
    rw [firstIdx_append_of_found _ (by decide)]
    decide
  have F1 : firstIdx (isStage 1) (cppSetupEvents ++ (L ++ [MainEvent.closeCam])) = 1 := by
    rw [firstIdx_append_of_found _ (by decide)]
    decide
  have F2 : firstIdx (isStage 2) (cppSetupEvents ++ (L ++ [MainEvent.closeCam])) = 2 := by
    rw [firstIdx_append_of_found _ (by decide)]
    decide
  have F3 : firstIdx (isStage 3) (cppSetupEvents ++ (L ++ [MainEvent.closeCam])) = 9 := by
    rw [firstIdx_append_of_found _ (by decide)]
    decide
  have h4L : firstIdx (isStage 4) (L ++ [MainEvent.closeCam]) = 0 := by
    rw [firstIdx_append_of_found _ (by rw [h4]; omega)]
    exact h4
  have F4 : firstIdx (isStage 4) (cppSetupEvents ++ (L ++ [MainEvent.closeCam])) = 10 := by
    rw [firstIdx_append_of_none _ (by decide), h4L]
    decide
  have F5 : firstIdx (isStage 5) (cppSetupEvents ++ (L ++ [MainEvent.closeCam])) =
      10 + firstIdx (isStage 5) L := by
    rw [firstIdx_append_of_none _ (by decide),
      firstIdx_append_of_found _ (by omega), hlen10]
  have F6 : firstIdx (isStage 6) (cppSetupEvents ++ (L ++ [MainEvent.closeCam])) =
      10 + firstIdx (isStage 6) L := by
    rw [firstIdx_append_of_none _ (by decide),
      firstIdx_append_of_found _ (by omega), hlen10]
  have F7 : firstIdx (isStage 7) (cppSetupEvents ++ (L ++ [MainEvent.closeCam])) =
      10 + L.length := by
    rw [firstIdx_append_of_none _ (by decide), firstIdx_append_of_none _ hno7L, hlen10]
    simp [firstIdx, isStage, MainEvent.stage]
  have FL : (cppSetupEvents ++ (L ++ [MainEvent.closeCam])).length =
      10 + (L.length + 1) := by
    simp [cppSetupEvents]
    omega
  constructor
  · exact ⟨F0, by omega, by omega, by omega, by omega, by omega, by omega,
      by omega, by omega⟩
  · refine ⟨cppSetupEvents ++ L, by simp, ?_⟩
    intro hmem
    have hL : MainEvent.closeCam ∈ L := by simpa [cppSetupEvents] using hmem
    have h2 := (hstages _ hL).2
    simp [MainEvent.stage] at h2

/-- C4 evaluated on a concrete finished run: the first occurrence of every
pipeline stage is in order and the trace ends with the close event. -/
theorem c4_witness :
    (firstIdx (isStage 0)
        ((cppMainTrace true (fun _ => true) (fun _ => true) 10).getD []) = 0) ∧
    (∃ pre, (cppMainTrace true (fun _ => true) (fun _ => true) 10).getD [] =
      pre ++ [MainEvent.closeCam] ∧ MainEvent.closeCam ∉ pre) := by
  have h := c4_pipeline_order (fun _ => true) (fun _ => true) 10
    ((cppMainTrace true (fun _ => true) (fun _ => true) 10).getD []) rfl
  exact ⟨h.1.1, h.2⟩

end LibChat
